import Mathlib

/-!
# Crazyflie firmware bring-up: `main.c`, `system.c`, `comm.c`

A shallow embedding of the boot orchestration of the firmware:

* `src/init/main.c`          : `main`
* `src/modules/src/system.c` : `systemInit`, `systemTest`, `systemTask`, `systemStart`,
  `systemWaitStart`, the arm-state accessors and `vApplicationIdleHook`
* `src/modules/src/comm.c`   : `commInit`, `commTest`

The static variables of the two modules form the record `SystemState`.  Every call that
leaves the three files (drivers, other modules, the RTOS) is recorded, in program order,
as an `Event` appended to the ghost field `trace`; the value such a call returns is read
from the record `Collaborators`.  Preprocessor symbols and platform macros are the fields
of `BuildConfig`.
-/

namespace Crazyflie

set_option maxRecDepth 100000

/-! ## Build configuration and collaborators -/

/-- Preprocessor symbols and platform macros the three files depend on.  A `Bool` field is
`true` when the symbol is defined (for `V_PRODUCTION_RELEASE`: when it is non-zero). -/
structure BuildConfig where
  START_DISARMED : Bool
  DEBUG_QUEUE_MONITOR : Bool
  ENABLE_UART1 : Bool
  ENABLE_UART2 : Bool
  PROXIMITY_ENABLED : Bool
  APP_ENABLED : Bool
  DEBUG : Bool
  V_PRODUCTION_RELEASE : Bool
  /-- The macro `M2T`: milliseconds to ticks. -/
  M2T : Nat → Nat
  WATCHDOG_RESET_PERIOD_MS : Nat

/-- The self-test functions that occur in `system.c` and `comm.c`.  `systemTest` and
`commTest` are defined in these files; the other twenty-one belong to collaborators. -/
inductive Test where
  | systemTest
  | ledseqTest
  | pmTest
  | workerTest
  | buzzerTest
  | configblockTest
  | storageTest
  | commTest
  | radiolinkTest
  | crtpTest
  | crtpserviceTest
  | platformserviceTest
  | consoleTest
  | paramTest
  | commanderTest
  | stabilizerTest
  | estimatorKalmanTaskTest
  | deckTest
  | soundTest
  | memTest
  | watchdogNormalStartTest
  | cfAssertNormalStartTest
  | peerLocalizationTest
  deriving DecidableEq

/-- The functions called without an argument that matters to what follows. -/
inductive Fn where
  | platformInit
  | debugInit
  | ledInit
  | queueMonitorInit
  | systemInit
  | sysLoadInit
  | crtpInit
  | consoleInit
  | platformConfigGetDeviceTypeName
  | configblockInit
  | storageInit
  | workerInit
  | adcInit
  | ledseqInit
  | pmInit
  | buzzerInit
  | peerLocalizationInit
  | appInit
  | commInit
  | uartslkInit
  | radiolinkInit
  | radiolinkGetLink
  | crtpSetLink
  | crtpserviceInit
  | platformserviceInit
  | logInit
  | paramInit
  | locSrvInit
  | commanderInit
  | estimatorKalmanTaskInit
  | deckInit
  | deckGetRequiredEstimator
  | deckGetRequiredLowInterferenceRadioMode
  | platformConfigPhysicalLayoutAntennasAreClose
  | platformSetLowInterferenceRadioMode
  | soundInit
  | memInit
  | proximityInit
  | systemStart
  | watchdogInit
  | watchdogReset
  | xPortGetFreeHeapSize
  | workerLoop
  | wfi
  deriving DecidableEq

/-- The LED named in a call of `ledSet`: one of the two macros used by `system.c`, or the
literal index used by `main.c`. -/
inductive Led where
  | CHG_LED
  | SYS_LED
  | index (n : Nat)
  deriving DecidableEq

/-- The LED sequences handed to `ledseqRun`. -/
inductive LedSeq where
  | seq_alive
  | seq_testPassed
  | seq_testFailed
  deriving DecidableEq

/-- One observable action, in program order. -/
inductive Event where
  /-- A call of the function `f`. -/
  | call (f : Fn)
  /-- The self-test `t` is invoked. -/
  | test (t : Test)
  /-- The self-test `t` returns `v`. -/
  | returned (t : Test) (v : Bool)
  | ledSet (led : Led) (value : Bool)
  | uart1Init (baudrate : Nat)
  | uart2Init (baudrate : Nat)
  | stabilizerInit (estimator : Nat)
  /-- The call `soundSetEffect(SND_STARTUP)`. -/
  | soundSetEffect_SND_STARTUP
  | ledseqRun (sequence : LedSeq)
  | vTaskDelay (ticks : Nat)
  /-- A `DEBUG_PRINT` with the given format string (the formatted arguments are not
  recorded). -/
  | DEBUG_PRINT (fmt : String)
  deriving DecidableEq

/-- What the collaborators answer when called: the result of every collaborator self-test
and the three queries `systemTask` makes of the deck and platform drivers. -/
structure Collaborators where
  selfTest : Test → Bool
  deckGetRequiredEstimator : Nat
  deckGetRequiredLowInterferenceRadioMode : Bool
  platformConfigPhysicalLayoutAntennasAreClose : Bool

/-! ## State -/

/-- Modelled from the spec: the FreeRTOS mutex behind `canStartMutex`, whose implementation
is not part of the three files.  It is either held by some task or available; it is
created available, `xSemaphoreTake` with `portMAX_DELAY` returns only once it is available
and leaves it held, and `xSemaphoreGive` leaves it available. -/
inductive Mutex where
  | held
  | available
  deriving DecidableEq

/-- The static variables of `system.c` (and `isInit` of `comm.c`), with the trace of
actions performed so far. -/
structure SystemState where
  selftestPassed : Bool
  canFly : Bool
  armed : Bool
  forceArm : Bool
  /-- The variable `isInit` of `system.c`. -/
  isInit : Bool
  /-- The variable `isInit` of `comm.c`. -/
  commIsInit : Bool
  /-- The handle `canStartMutex`; `none` before the mutex is created. -/
  canStartMutex : Option Mutex
  /-- The function-static `tickOfLatestWatchdogReset` of `vApplicationIdleHook`
  (`uint32_t`). -/
  tickOfLatestWatchdogReset : Nat
  trace : List Event

/-- Two to the thirty-two: the modulus of `uint32_t` arithmetic. -/
def UINT32_MODULUS : Nat := 4294967296

/-- The state at power-on: zero-initialised statics, `armed = ARM_INIT`,
`tickOfLatestWatchdogReset = M2T(0)`. -/
def boot (b : BuildConfig) : SystemState :=
  { selftestPassed := false
    canFly := false
    armed := !b.START_DISARMED
    forceArm := false
    isInit := false
    commIsInit := false
    canStartMutex := none
    tickOfLatestWatchdogReset := b.M2T 0 % UINT32_MODULUS
    trace := [] }

/-- Record one action. -/
def emit (e : Event) (s : SystemState) : SystemState :=
  { s with trace := s.trace ++ [e] }

/-- Call a collaborator self-test: the invocation and the value it returns are recorded. -/
def collaboratorTest (c : Collaborators) (t : Test) (s : SystemState) : Bool × SystemState :=
  (c.selfTest t, emit (.returned t (c.selfTest t)) (emit (.test t) s))

/-! ## `comm.c` -/

/-- The function `commTest` of `comm.c`: `pass` starts as `isInit` and is and-ed with the
result of each of the six sub-tests, every one of which is called. -/
def commTest (c : Collaborators) (s : SystemState) : Bool × SystemState :=
  let s := emit (.test .commTest) s
  let pass := s.commIsInit
  let (r, s) := collaboratorTest c .radiolinkTest s
  let pass := pass && r
  let s := emit (.DEBUG_PRINT "Running commTest:\n%d\n") s
  let (r, s) := collaboratorTest c .crtpTest s
  let pass := pass && r
  let s := emit (.DEBUG_PRINT "%d\n") s
  let (r, s) := collaboratorTest c .crtpserviceTest s
  let pass := pass && r
  let s := emit (.DEBUG_PRINT "%d\n") s
  let (r, s) := collaboratorTest c .platformserviceTest s
  let pass := pass && r
  let s := emit (.DEBUG_PRINT "%d\n") s
  let (r, s) := collaboratorTest c .consoleTest s
  let pass := pass && r
  let s := emit (.DEBUG_PRINT "%d\n") s
  let (r, s) := collaboratorTest c .paramTest s
  let pass := pass && r
  let s := emit (.DEBUG_PRINT "%d\n") s
  (pass, emit (.returned .commTest pass) s)

/-- The function `commInit` of `comm.c`.  After setting `isInit` it calls `commTest` and
drops the result. -/
def commInit (c : Collaborators) (s : SystemState) : SystemState :=
  let s := emit (.call .commInit) s
  if s.commIsInit then s
  else
    let s := emit (.call .uartslkInit) s
    let s := emit (.call .radiolinkInit) s
    let s := emit (.call .radiolinkGetLink) s
    let s := emit (.call .crtpSetLink) s
    let s := emit (.call .crtpserviceInit) s
    let s := emit (.call .platformserviceInit) s
    let s := emit (.call .logInit) s
    let s := emit (.call .paramInit) s
    let s := emit (.call .locSrvInit) s
    let s := { s with commIsInit := true }
    (commTest c s).2

/-! ## `system.c` -/

/-- The function `systemInit`.  `xSemaphoreCreateMutexStatic` creates the mutex available;
the `xSemaphoreTake` that follows finds it so, returns at once and leaves it held. -/
def systemInit (b : BuildConfig) (s : SystemState) : SystemState :=
  let s := emit (.call .systemInit) s
  if s.isInit then s
  else
    let s := { s with canStartMutex := some Mutex.available }
    let s := { s with canStartMutex := some Mutex.held }
    let s := emit (.call .sysLoadInit) s
    let s := emit (.call .debugInit) s
    let s := emit (.call .crtpInit) s
    let s := emit (.call .consoleInit) s
    let s := emit (.DEBUG_PRINT "----------------------------\n") s
    let s := emit (.call .platformConfigGetDeviceTypeName) s
    let s := emit (.DEBUG_PRINT "%s is up and running!\n") s
    let s :=
      if b.V_PRODUCTION_RELEASE then emit (.DEBUG_PRINT "Production release %s\n") s
      else emit (.DEBUG_PRINT "Build %s:%s (%s) %s\n") s
    let s := emit (.DEBUG_PRINT "I am 0x%08X%08X%08X and I have %dKB of flash!\n") s
    let s := emit (.call .configblockInit) s
    let s := emit (.DEBUG_PRINT "config init\n") s
    let s := emit (.call .storageInit) s
    let s := emit (.call .workerInit) s
    let s := emit (.call .adcInit) s
    let s := emit (.call .ledseqInit) s
    let s := emit (.call .pmInit) s
    let s := emit (.call .buzzerInit) s
    let s := emit (.call .peerLocalizationInit) s
    let s := if b.APP_ENABLED then emit (.call .appInit) s else s
    { s with isInit := true }

/-- The function `systemTest`: `pass` starts as `isInit` and is and-ed with the result of
each of the four sub-tests, every one of which is called. -/
def systemTest (c : Collaborators) (s : SystemState) : Bool × SystemState :=
  let s := emit (.test .systemTest) s
  let pass := s.isInit
  let (r, s) := collaboratorTest c .ledseqTest s
  let pass := pass && r
  let s := emit (.DEBUG_PRINT "ledseq %u\n") s
  let (r, s) := collaboratorTest c .pmTest s
  let pass := pass && r
  let s := emit (.DEBUG_PRINT "pm %u\n") s
  let (r, s) := collaboratorTest c .workerTest s
  let pass := pass && r
  let s := emit (.DEBUG_PRINT "worker %u\n") s
  let (r, s) := collaboratorTest c .buzzerTest s
  let pass := pass && r
  let s := emit (.DEBUG_PRINT "buzzer %u\n") s
  (pass, emit (.returned .systemTest pass) s)

/-- Modelled from the spec: the FreeRTOS call `xSemaphoreGive(canStartMutex)`, not part of
the three files.  A held mutex becomes available and an available one stays so (release is
idempotent); a handle that was never created stays uncreated. -/
def xSemaphoreGive : Option Mutex → Option Mutex
  | some _ => some Mutex.available
  | none => none

/-- The function `systemStart`: give the mutex, and start the watchdog unless `DEBUG` is
defined. -/
def systemStart (b : BuildConfig) (s : SystemState) : SystemState :=
  let s := emit (.call .systemStart) s
  let s := { s with canStartMutex := xSemaphoreGive s.canStartMutex }
  if b.DEBUG then s else emit (.call .watchdogInit) s

/-- The function `systemWaitStart` as one atomic step; `none` when the caller cannot get
through in this state: it stays in `while(!isInit) vTaskDelay(2)` or is blocked in
`xSemaphoreTake(canStartMutex, portMAX_DELAY)`.  Otherwise the mutex is taken and given
back. -/
def systemWaitStart (s : SystemState) : Option SystemState :=
  if s.isInit then
    match s.canStartMutex with
    | some Mutex.available =>
      let s := { s with canStartMutex := some Mutex.held }
      some { s with canStartMutex := xSemaphoreGive s.canStartMutex }
    | _ => none
  else none

/-- The function `systemSetCanFly`. -/
def systemSetCanFly (val : Bool) (s : SystemState) : SystemState :=
  { s with canFly := val }

/-- The function `systemCanFly`. -/
def systemCanFly (s : SystemState) : Bool :=
  s.canFly

/-- The function `systemSetArmed`. -/
def systemSetArmed (val : Bool) (s : SystemState) : SystemState :=
  { s with armed := val }

/-- The function `systemIsArmed`. -/
def systemIsArmed (s : SystemState) : Bool :=
  s.armed || s.forceArm

/-- Subtraction of two `uint32_t` values. -/
def u32sub (a b : Nat) : Nat :=
  (a % UINT32_MODULUS + UINT32_MODULUS - b % UINT32_MODULUS) % UINT32_MODULUS

/-- The function `vApplicationIdleHook`; `tick` is what `xTaskGetTickCount()` returns. -/
def vApplicationIdleHook (b : BuildConfig) (tick : Nat) (s : SystemState) : SystemState :=
  let tickCount := tick % UINT32_MODULUS
  let s :=
    if u32sub tickCount s.tickOfLatestWatchdogReset
        > b.M2T b.WATCHDOG_RESET_PERIOD_MS % UINT32_MODULUS then
      let s := { s with tickOfLatestWatchdogReset := tickCount }
      emit (.call .watchdogReset) s
    else s
  if b.DEBUG then s else emit (.call .wfi) s

/-! ## `systemTask` -/

/-- First part of `systemTask`, up to `DEBUG_PRINT("Time to run tests!\n")`: the LEDs,
the optional UARTs, and the init calls of the high-level modules. -/
def systemTask_init (b : BuildConfig) (c : Collaborators) (s : SystemState) : SystemState :=
  let s := emit (.call .ledInit) s
  let s := emit (.ledSet .CHG_LED true) s
  let s := if b.DEBUG_QUEUE_MONITOR then emit (.call .queueMonitorInit) s else s
  let s := if b.ENABLE_UART1 then emit (.uart1Init 9600) s else s
  let s := if b.ENABLE_UART2 then emit (.uart2Init 115200) s else s
  let s := systemInit b s
  let s := emit (.DEBUG_PRINT "Passed through systemInit()\n") s
  let s := commInit c s
  let s := emit (.call .commanderInit) s
  let s := emit (.call .estimatorKalmanTaskInit) s
  let s := emit (.DEBUG_PRINT "Kalman estimator init\n") s
  let s := emit (.call .deckInit) s
  let s := emit (.DEBUG_PRINT "deck init\n") s
  let s := emit (.call .deckGetRequiredEstimator) s
  let estimator := c.deckGetRequiredEstimator
  let s := emit (.DEBUG_PRINT "Got estimator...\n") s
  let s := emit (.stabilizerInit estimator) s
  let s := emit (.DEBUG_PRINT "stabilizer init\n") s
  let s := emit (.call .deckGetRequiredLowInterferenceRadioMode) s
  let s :=
    if c.deckGetRequiredLowInterferenceRadioMode then
      let s := emit (.call .platformConfigPhysicalLayoutAntennasAreClose) s
      if c.platformConfigPhysicalLayoutAntennasAreClose then
        emit (.call .platformSetLowInterferenceRadioMode) s
      else s
    else s
  let s := emit (.call .soundInit) s
  let s := emit (.call .memInit) s
  let s := if b.PROXIMITY_ENABLED then emit (.call .proximityInit) s else s
  emit (.DEBUG_PRINT "Time to run tests!\n") s

/-- Second part of `systemTask`, the thirteen statements `pass &= ...Test()` between
`"Time to run tests!"` and `"After all tests!"`; `pass` starts as `true`. -/
def systemTask_selfTest (c : Collaborators) (s : SystemState) : Bool × SystemState :=
  let pass := true
  let (r, s) := systemTest c s
  let pass := pass && r
  let s := emit (.DEBUG_PRINT "system %u\n") s
  let (r, s) := collaboratorTest c .configblockTest s
  let pass := pass && r
  let s := emit (.DEBUG_PRINT "configblock %u\n") s
  let (r, s) := collaboratorTest c .storageTest s
  let pass := pass && r
  let s := emit (.DEBUG_PRINT "storage %u\n") s
  let (r, s) := commTest c s
  let pass := pass && r
  let s := emit (.DEBUG_PRINT "comm %u\n") s
  let (r, s) := collaboratorTest c .commanderTest s
  let pass := pass && r
  let s := emit (.DEBUG_PRINT "commander %u\n") s
  let (r, s) := collaboratorTest c .stabilizerTest s
  let pass := pass && r
  let s := emit (.DEBUG_PRINT "stabilizer %u\n") s
  let (r, s) := collaboratorTest c .estimatorKalmanTaskTest s
  let pass := pass && r
  let s := emit (.DEBUG_PRINT "estimatorKalman %u\n") s
  let (r, s) := collaboratorTest c .deckTest s
  let pass := pass && r
  let s := emit (.DEBUG_PRINT "deck %u\n") s
  let (r, s) := collaboratorTest c .soundTest s
  let pass := pass && r
  let s := emit (.DEBUG_PRINT "sound %u\n") s
  let (r, s) := collaboratorTest c .memTest s
  let pass := pass && r
  let s := emit (.DEBUG_PRINT "mem %u\n") s
  let (r, s) := collaboratorTest c .watchdogNormalStartTest s
  let pass := pass && r
  let s := emit (.DEBUG_PRINT "watchdogNormalStart %u\n") s
  let (r, s) := collaboratorTest c .cfAssertNormalStartTest s
  let pass := pass && r
  let s := emit (.DEBUG_PRINT "cfAssertNormalStart %u\n") s
  let (r, s) := collaboratorTest c .peerLocalizationTest s
  let pass := pass && r
  let s := emit (.DEBUG_PRINT "peerLocalization %u\n") s
  (pass, emit (.DEBUG_PRINT "After all tests!\n") s)

/-- A write made by another execution context to one of the flags of `system.c` while the
system task is suspended in `vTaskDelay`: through the setters, or through the addresses
the file hands to the parameter registry (`selftestPassed`, `forceArm`). -/
inductive ExternalWrite where
  | forceArm (val : Bool)
  | selftestPassed (val : Bool)
  | armed (val : Bool)
  | canFly (val : Bool)
  deriving DecidableEq

/-- Effect of an external write. -/
def ExternalWrite.apply : ExternalWrite → SystemState → SystemState
  | .forceArm v, s => { s with forceArm := v }
  | .selftestPassed v, s => { s with selftestPassed := v }
  | .armed v, s => systemSetArmed v s
  | .canFly v, s => systemSetCanFly v s

/-- All the writes of one delay, in order. -/
def applyWrites (ws : List ExternalWrite) (s : SystemState) : SystemState :=
  ws.foldl (fun s w => w.apply s) s

/-- One pass through the body of the `while(1)` loop of `systemTask`; `ws` are the external
writes that land during the `vTaskDelay(M2T(2000))`.  The `Bool` tells whether the loop
was left through `break`. -/
def overridePoll (b : BuildConfig) (ws : List ExternalWrite) (s : SystemState) :
    SystemState × Bool :=
  let s := emit (.ledseqRun .seq_testFailed) s
  let s := emit (.vTaskDelay (b.M2T 2000)) s
  let s := applyWrites ws s
  if s.selftestPassed then
    let s := emit (.DEBUG_PRINT "Start forced.\n") s
    (systemStart b s, true)
  else (s, false)

/-- The `while(1)` loop of `systemTask`, run for as many passes as `polls` has entries
(entry `k` holds the external writes of the `k`-th delay).  The `Bool` is `true` when the
loop was left through `break`, `false` when it is still polling after the last entry. -/
def overrideLoop (b : BuildConfig) : List (List ExternalWrite) → SystemState → SystemState × Bool
  | [], s => (s, false)
  | ws :: polls, s =>
    match overridePoll b ws s with
    | (s, true) => (s, true)
    | (s, false) => overrideLoop b polls s

/-- The end of `systemTask`, after the `if(pass)` statement: the free-heap print and the
call of `workerLoop()`, which is where the model stops (what follows it in the source is
marked as never reached). -/
def systemTask_work (s : SystemState) : SystemState :=
  let s := emit (.call .xPortGetFreeHeapSize) s
  let s := emit (.DEBUG_PRINT "Free heap: %d bytes\n") s
  emit (.call .workerLoop) s

/-- Third part of `systemTask`, from `if(pass)` on.  When the override loop is still polling
after `polls` the state reached so far is returned; otherwise the task goes on to
`systemTask_work`. -/
def systemTask_start (b : BuildConfig) (c : Collaborators) (polls : List (List ExternalWrite))
    (pass : Bool) (s : SystemState) : SystemState :=
  if pass then
    let s := { s with selftestPassed := true }
    let s := systemStart b s
    let s := emit .soundSetEffect_SND_STARTUP s
    let s := emit (.ledseqRun .seq_alive) s
    let s := emit (.ledseqRun .seq_testPassed) s
    systemTask_work s
  else
    let s := { s with selftestPassed := false }
    let (r, s) := systemTest c s
    if r then
      match overrideLoop b polls s with
      | (s, true) => systemTask_work s
      | (s, false) => s
    else
      let s := emit (.call .ledInit) s
      let s := emit (.ledSet .SYS_LED true) s
      systemTask_work s

/-- The function `systemTask`. -/
def systemTask (b : BuildConfig) (c : Collaborators) (polls : List (List ExternalWrite))
    (s : SystemState) : SystemState :=
  let s := systemTask_init b c s
  let (pass, s) := systemTask_selfTest c s
  systemTask_start b c polls pass s

/-! ## The module's operations as atomic steps -/

/-- The operations of `system.c` other tasks and the scheduler can invoke. -/
inductive Op where
  | systemInit
  | systemStart
  | systemWaitStart
  | systemSetArmed (val : Bool)
  | systemSetCanFly (val : Bool)
  | vApplicationIdleHook (tick : Nat)
  deriving DecidableEq

/-- Effect of one operation taken as an atomic step.  A `systemWaitStart` that cannot get
through leaves the state as it is (its caller stays blocked). -/
def exec (b : BuildConfig) : Op → SystemState → SystemState
  | .systemInit, s => systemInit b s
  | .systemStart, s => systemStart b s
  | .systemWaitStart, s => (systemWaitStart s).getD s
  | .systemSetArmed v, s => systemSetArmed v s
  | .systemSetCanFly v, s => systemSetCanFly v s
  | .vApplicationIdleHook tick, s => vApplicationIdleHook b tick s

/-- A sequence of atomic steps. -/
def run (b : BuildConfig) (ops : List Op) (s : SystemState) : SystemState :=
  ops.foldl (fun s op => exec b op s) s

/-! ## `main.c` -/

/-- How a run of `main` ends. -/
inductive Outcome where
  /-- Control sits in a `while(1);` for ever. -/
  | spinsForever
  | returned (value : Int)
  deriving DecidableEq

/-- The function `main`; `err` is what `platformInit()` returns.  The result is the list of
actions performed and how the run ends. -/
def main (err : Int) : List Event × Outcome :=
  let t := [Event.call .platformInit]
  if err ≠ 0 then (t, Outcome.spinsForever)
  else
    let t := t ++ [Event.uart1Init 9600]
    let t := t ++ [Event.call .debugInit]
    let t := t ++ [Event.DEBUG_PRINT "Before systemLaunch\n"]
    let t := t ++ [Event.call .ledInit]
    let t := t ++ [Event.ledSet (.index 0) true]
    let t := t ++ [Event.ledSet (.index 1) true]
    let t := t ++ [Event.DEBUG_PRINT "Should never reach this point! (When we are done...)"]
    (t, Outcome.spinsForever)

/-! ## Vocabulary of the properties -/

/-- The actions performed between state `s` and a later state `s'`. -/
def since (s s' : SystemState) : List Event :=
  s'.trace.drop s.trace.length

/-- The thirteen module self-tests of `systemTask`, in the order of the source. -/
def moduleTests : List Test :=
  [.systemTest, .configblockTest, .storageTest, .commTest, .commanderTest, .stabilizerTest,
   .estimatorKalmanTaskTest, .deckTest, .soundTest, .memTest, .watchdogNormalStartTest,
   .cfAssertNormalStartTest, .peerLocalizationTest]

/-- The sub-tests of `systemTest`, in the order of the source. -/
def systemSubTests : List Test :=
  [.ledseqTest, .pmTest, .workerTest, .buzzerTest]

/-- The sub-tests of `commTest`, in the order of the source. -/
def commSubTests : List Test :=
  [.radiolinkTest, .crtpTest, .crtpserviceTest, .platformserviceTest, .consoleTest, .paramTest]

/-- The self-tests invoked in a list of actions, in order. -/
def testsInvoked (evs : List Event) : List Test :=
  evs.filterMap fun e =>
    match e with
    | .test t => some t
    | _ => none

/-- The module self-tests that return in a list of actions, each with the value it
returned, in order. -/
def moduleReturns (evs : List Event) : List (Test × Bool) :=
  evs.filterMap fun e =>
    match e with
    | .returned t v => if t ∈ moduleTests then some (t, v) else none
    | _ => none

/-- The module init calls of `systemTask`: `systemInit`, `commInit`, `commanderInit`,
`estimatorKalmanTaskInit`, `deckInit`, `stabilizerInit`, `soundInit`, `memInit`. -/
def isModuleInit : Event → Bool
  | .call f =>
    decide (f ∈ [Fn.systemInit, Fn.commInit, Fn.commanderInit, Fn.estimatorKalmanTaskInit,
      Fn.deckInit, Fn.soundInit, Fn.memInit])
  | .stabilizerInit _ => true
  | _ => false

/-- The state of `systemTask`, started in `s`, when it reaches
`DEBUG_PRINT("Time to run tests!\n")`. -/
def afterInit (b : BuildConfig) (c : Collaborators) (s : SystemState) : SystemState :=
  systemTask_init b c s

/-- The aggregate `pass` of `systemTask`, started in `s`, after its thirteen self-tests. -/
def aggregate (b : BuildConfig) (c : Collaborators) (s : SystemState) : Bool :=
  (systemTask_selfTest c (afterInit b c s)).1

/-- The state of `systemTask`, started in `s`, when it reaches `if(pass)`. -/
def afterSelfTest (b : BuildConfig) (c : Collaborators) (s : SystemState) : SystemState :=
  (systemTask_selfTest c (afterInit b c s)).2

/-- The call `systemTest()` that `systemTask`, started in `s`, makes in the `else` branch
of `if(pass)`, after clearing `selftestPassed`: the value returned and the state reached. -/
def retest (b : BuildConfig) (c : Collaborators) (s : SystemState) : Bool × SystemState :=
  systemTest c { afterSelfTest b c s with selftestPassed := false }

/-- How often the watchdog was pet in a trace. -/
def petCount (s : SystemState) : Nat :=
  s.trace.count (Event.call Fn.watchdogReset)

/-- The tick counts at which successive runs of `vApplicationIdleHook`, fed the tick
counts `ticks`, pet the watchdog. -/
def petTicks (b : BuildConfig) : List Nat → SystemState → List Nat
  | [], _ => []
  | tick :: ticks, s =>
    let s' := vApplicationIdleHook b tick s
    (if petCount s < petCount s' then [tick % UINT32_MODULUS] else []) ++ petTicks b ticks s'

/-! ## Concrete inputs -/

/-- A release build with a 1 kHz tick and the 80 ms watchdog period. -/
def releaseBuild : BuildConfig :=
  { START_DISARMED := false
    DEBUG_QUEUE_MONITOR := false
    ENABLE_UART1 := false
    ENABLE_UART2 := false
    PROXIMITY_ENABLED := false
    APP_ENABLED := false
    DEBUG := false
    V_PRODUCTION_RELEASE := false
    M2T := fun ms => ms
    WATCHDOG_RESET_PERIOD_MS := 80 }

/-- Collaborators whose self-tests all pass. -/
def healthy : Collaborators :=
  { selfTest := fun _ => true
    deckGetRequiredEstimator := 2
    deckGetRequiredLowInterferenceRadioMode := false
    platformConfigPhysicalLayoutAntennasAreClose := false }

/-- Collaborators of which only `storageTest` fails. -/
def storageBroken : Collaborators :=
  { healthy with selfTest := fun t => decide (t ≠ Test.storageTest) }

/-- Collaborators of which only `ledseqTest` fails. -/
def ledseqBroken : Collaborators :=
  { healthy with selfTest := fun t => decide (t ≠ Test.ledseqTest) }

/-- The state of a release build whose `storageTest` failed, on entry to the override
loop of `systemTask` (no poll made yet). -/
def inOverrideLoop : SystemState :=
  systemTask releaseBuild storageBroken [] (boot releaseBuild)

/-! ## Basic facts -/

theorem emit_trace (e : Event) (s : SystemState) : (emit e s).trace = s.trace ++ [e] := rfl

theorem emit_selftestPassed (e : Event) (s : SystemState) :
    (emit e s).selftestPassed = s.selftestPassed := rfl

theorem emit_canStartMutex (e : Event) (s : SystemState) :
    (emit e s).canStartMutex = s.canStartMutex := rfl

theorem emit_isInit (e : Event) (s : SystemState) : (emit e s).isInit = s.isInit := rfl

theorem emit_commIsInit (e : Event) (s : SystemState) :
    (emit e s).commIsInit = s.commIsInit := rfl

theorem since_append (s s' : SystemState) (evs : List Event) (h : s'.trace = s.trace ++ evs) :
    since s s' = evs := by
  simp [since, h]

theorem systemTest_trace (c : Collaborators) (s : SystemState) :
    (systemTest c s).2.trace = s.trace ++
      [.test .systemTest,
       .test .ledseqTest, .returned .ledseqTest (c.selfTest .ledseqTest),
       .DEBUG_PRINT "ledseq %u\n",
       .test .pmTest, .returned .pmTest (c.selfTest .pmTest),
       .DEBUG_PRINT "pm %u\n",
       .test .workerTest, .returned .workerTest (c.selfTest .workerTest),
       .DEBUG_PRINT "worker %u\n",
       .test .buzzerTest, .returned .buzzerTest (c.selfTest .buzzerTest),
       .DEBUG_PRINT "buzzer %u\n",
       .returned .systemTest (systemTest c s).1] := by
  simp [systemTest, collaboratorTest, emit]

theorem commTest_trace (c : Collaborators) (s : SystemState) :
    (commTest c s).2.trace = s.trace ++
      [.test .commTest,
       .test .radiolinkTest, .returned .radiolinkTest (c.selfTest .radiolinkTest),
       .DEBUG_PRINT "Running commTest:\n%d\n",
       .test .crtpTest, .returned .crtpTest (c.selfTest .crtpTest),
       .DEBUG_PRINT "%d\n",
       .test .crtpserviceTest, .returned .crtpserviceTest (c.selfTest .crtpserviceTest),
       .DEBUG_PRINT "%d\n",
       .test .platformserviceTest,
       .returned .platformserviceTest (c.selfTest .platformserviceTest),
       .DEBUG_PRINT "%d\n",
       .test .consoleTest, .returned .consoleTest (c.selfTest .consoleTest),
       .DEBUG_PRINT "%d\n",
       .test .paramTest, .returned .paramTest (c.selfTest .paramTest),
       .DEBUG_PRINT "%d\n",
       .returned .commTest (commTest c s).1] := by
  simp [commTest, collaboratorTest, emit]

theorem systemTest_selftestPassed (c : Collaborators) (s : SystemState) :
    (systemTest c s).2.selftestPassed = s.selftestPassed := by
  simp [systemTest, collaboratorTest, emit]

theorem systemTest_canStartMutex (c : Collaborators) (s : SystemState) :
    (systemTest c s).2.canStartMutex = s.canStartMutex := by
  simp [systemTest, collaboratorTest, emit]

theorem systemTest_fst (c : Collaborators) (s : SystemState) :
    (systemTest c s).1 = (s.isInit && c.selfTest .ledseqTest && c.selfTest .pmTest
      && c.selfTest .workerTest && c.selfTest .buzzerTest) := by
  simp [systemTest, collaboratorTest, emit]

theorem commTest_fst (c : Collaborators) (s : SystemState) :
    (commTest c s).1 = (s.commIsInit && c.selfTest .radiolinkTest && c.selfTest .crtpTest
      && c.selfTest .crtpserviceTest && c.selfTest .platformserviceTest
      && c.selfTest .consoleTest && c.selfTest .paramTest) := by
  simp [commTest, collaboratorTest, emit]

/-! ## The self-test phase -/

theorem systemTask_selfTest_fst (c : Collaborators) (s : SystemState) :
    (systemTask_selfTest c s).1 =
      ((systemTest c s).1 && c.selfTest .configblockTest && c.selfTest .storageTest
        && (commTest c s).1 && c.selfTest .commanderTest && c.selfTest .stabilizerTest
        && c.selfTest .estimatorKalmanTaskTest && c.selfTest .deckTest
        && c.selfTest .soundTest && c.selfTest .memTest
        && c.selfTest .watchdogNormalStartTest && c.selfTest .cfAssertNormalStartTest
        && c.selfTest .peerLocalizationTest) := by
  simp [systemTask_selfTest, systemTest, commTest, collaboratorTest, emit, Bool.and_assoc]

theorem systemTask_selfTest_grows (c : Collaborators) (s : SystemState) :
    (systemTask_selfTest c s).2.trace = s.trace ++ since s (systemTask_selfTest c s).2 := by
  simp [since, systemTask_selfTest, systemTest, commTest, collaboratorTest, emit]

theorem testsInvoked_selfTest (c : Collaborators) (s : SystemState) :
    testsInvoked (since s (systemTask_selfTest c s).2)
      = [.systemTest, .ledseqTest, .pmTest, .workerTest, .buzzerTest,
         .configblockTest, .storageTest,
         .commTest, .radiolinkTest, .crtpTest, .crtpserviceTest, .platformserviceTest,
         .consoleTest, .paramTest,
         .commanderTest, .stabilizerTest, .estimatorKalmanTaskTest, .deckTest, .soundTest,
         .memTest, .watchdogNormalStartTest, .cfAssertNormalStartTest,
         .peerLocalizationTest] := by
  simp [since, testsInvoked, systemTask_selfTest, systemTest, commTest, collaboratorTest,
    emit]

theorem moduleReturns_selfTest (c : Collaborators) (s : SystemState) :
    moduleReturns (since s (systemTask_selfTest c s).2)
      = [(.systemTest, (systemTest c s).1),
         (.configblockTest, c.selfTest .configblockTest),
         (.storageTest, c.selfTest .storageTest),
         (.commTest, (commTest c s).1),
         (.commanderTest, c.selfTest .commanderTest),
         (.stabilizerTest, c.selfTest .stabilizerTest),
         (.estimatorKalmanTaskTest, c.selfTest .estimatorKalmanTaskTest),
         (.deckTest, c.selfTest .deckTest),
         (.soundTest, c.selfTest .soundTest),
         (.memTest, c.selfTest .memTest),
         (.watchdogNormalStartTest, c.selfTest .watchdogNormalStartTest),
         (.cfAssertNormalStartTest, c.selfTest .cfAssertNormalStartTest),
         (.peerLocalizationTest, c.selfTest .peerLocalizationTest)] := by
  simp [since, moduleReturns, moduleTests, systemTask_selfTest, systemTest, commTest,
    collaboratorTest, emit]

/-- Claim C1.  Whatever the collaborator self-tests return, the self-test phase of
`systemTask` invokes exactly the thirteen module self-tests, each once and in the order of
the source, with the four sub-tests of `systemTest` and the six of `commTest` each invoked
once, in order, inside them; `systemTest` and `commTest` taken alone invoke all their
sub-tests in order, also when their `isInit` is false. -/
theorem selfTest_phase_invokes_every_test_once (c : Collaborators) (s : SystemState) :
    (systemTask_selfTest c s).2.trace = s.trace ++ since s (systemTask_selfTest c s).2
    ∧ testsInvoked (since s (systemTask_selfTest c s).2)
        = [.systemTest, .ledseqTest, .pmTest, .workerTest, .buzzerTest,
           .configblockTest, .storageTest,
           .commTest, .radiolinkTest, .crtpTest, .crtpserviceTest, .platformserviceTest,
           .consoleTest, .paramTest,
           .commanderTest, .stabilizerTest, .estimatorKalmanTaskTest, .deckTest, .soundTest,
           .memTest, .watchdogNormalStartTest, .cfAssertNormalStartTest,
           .peerLocalizationTest]
    ∧ (testsInvoked (since s (systemTask_selfTest c s).2)).filter (fun t => t ∈ moduleTests)
        = moduleTests
    ∧ (∀ t : Test, (testsInvoked (since s (systemTask_selfTest c s).2)).count t = 1)
    ∧ testsInvoked (since s (systemTest c s).2) = Test.systemTest :: systemSubTests
    ∧ testsInvoked (since s (commTest c s).2) = Test.commTest :: commSubTests := by
  refine ⟨?_, testsInvoked_selfTest c s, ?_, ?_, ?_, ?_⟩
  · exact systemTask_selfTest_grows c s
  · rw [testsInvoked_selfTest]
    decide
  · rw [testsInvoked_selfTest]
    intro t
    cases t <;> decide
  · rw [since_append _ _ _ (systemTest_trace c s)]
    simp [testsInvoked, systemSubTests]
  · rw [since_append _ _ _ (commTest_trace c s)]
    simp [testsInvoked, commSubTests]

theorem systemTask_start_flag (b : BuildConfig) (c : Collaborators) (pass : Bool)
    (s : SystemState) : (systemTask_start b c [] pass s).selftestPassed = pass := by
  cases pass
  · have h := systemTest_selftestPassed c { s with selftestPassed := false }
    cases hr : (systemTest c { s with selftestPassed := false }).1 <;>
      simp [systemTask_start, hr, overrideLoop, systemTask_work, emit_selftestPassed, h]
  · cases hd : b.DEBUG <;>
      simp [systemTask_start, systemStart, systemTask_work, emit_selftestPassed, hd]

/-- Claim C2.  The aggregate `pass` computed by the self-test phase of `systemTask` is
true exactly when every one of the thirteen module self-tests returned true, false exactly
when one of them returned false; each of the thirteen returns once; and the flag
`selftestPassed` that `systemTask` writes from it holds the same value. -/
theorem aggregate_pass_is_conjunction (b : BuildConfig) (c : Collaborators)
    (s : SystemState) :
    ((systemTask_selfTest c s).1 = true
        ↔ ∀ r ∈ moduleReturns (since s (systemTask_selfTest c s).2), r.2 = true)
    ∧ ((systemTask_selfTest c s).1 = false
        ↔ ∃ r ∈ moduleReturns (since s (systemTask_selfTest c s).2), r.2 = false)
    ∧ (moduleReturns (since s (systemTask_selfTest c s).2)).map Prod.fst = moduleTests
    ∧ (systemTask_start b c [] (systemTask_selfTest c s).1
        (systemTask_selfTest c s).2).selftestPassed = (systemTask_selfTest c s).1 := by
  rw [moduleReturns_selfTest, systemTask_selfTest_fst]
  refine ⟨?_, ?_, ?_, ?_⟩
  · simp [and_assoc]
  · rw [← Bool.not_eq_true, ← not_iff_not]
    simp [and_assoc]
  · simp [moduleTests]
  · exact systemTask_start_flag b c _ _

/-! ## Arm state -/

/-- Claim C9, as amended.  After `systemSetArmed(v)`, `systemIsArmed()` returns
`v || forceArm`; after `systemSetCanFly(v)`, `systemCanFly()` returns `v`; each setter
changes its own field and nothing else. -/
theorem armState_accessors (v : Bool) (s : SystemState) :
    systemIsArmed (systemSetArmed v s) = (v || s.forceArm)
    ∧ systemCanFly (systemSetCanFly v s) = v
    ∧ systemSetArmed v s = { s with armed := v }
    ∧ systemSetCanFly v s = { s with canFly := v } :=
  ⟨rfl, rfl, rfl, rfl⟩

/-- Claim C9 fails as stated: with `forceArm` set, `systemSetArmed(false)` followed by
`systemIsArmed()` returns true, not false. -/
theorem systemIsArmed_ignores_disarm_when_forced :
    (ExternalWrite.apply (.forceArm true) (boot releaseBuild)).forceArm = true
    ∧ systemIsArmed
        (systemSetArmed false (ExternalWrite.apply (.forceArm true) (boot releaseBuild)))
      = true
    ∧ ¬ (∀ (v : Bool) (s : SystemState), systemIsArmed (systemSetArmed v s) = v) := by
  refine ⟨rfl, rfl, ?_⟩
  intro h
  have h1 := h false (ExternalWrite.apply (.forceArm true) (boot releaseBuild))
  exact absurd h1 (by decide)

/-! ## `main` -/

/-- Claim C10.  When `platformInit()` returns a non-zero value, `main` does nothing after
that call and sits in its `while(1);` for ever; when it returns zero, `main` goes on with
`uart1Init(9600)`, `debugInit()` and the LED calls (and then also never returns). -/
theorem main_halts_on_platform_error (err : Int) (h : err ≠ 0) :
    main err = ([Event.call Fn.platformInit], Outcome.spinsForever)
    ∧ main 0 =
        ([Event.call Fn.platformInit, Event.uart1Init 9600, Event.call Fn.debugInit,
          Event.DEBUG_PRINT "Before systemLaunch\n", Event.call Fn.ledInit,
          Event.ledSet (Led.index 0) true, Event.ledSet (Led.index 1) true,
          Event.DEBUG_PRINT "Should never reach this point! (When we are done...)"],
         Outcome.spinsForever) := by
  constructor
  · simp [main, h]
  · rfl

theorem main_halts_on_platform_error_witness :
    (1 : Int) ≠ 0
    ∧ main 1 = ([Event.call Fn.platformInit], Outcome.spinsForever)
    ∧ main 0 =
        ([Event.call Fn.platformInit, Event.uart1Init 9600, Event.call Fn.debugInit,
          Event.DEBUG_PRINT "Before systemLaunch\n", Event.call Fn.ledInit,
          Event.ledSet (Led.index 0) true, Event.ledSet (Led.index 1) true,
          Event.DEBUG_PRINT "Should never reach this point! (When we are done...)"],
         Outcome.spinsForever) :=
  ⟨by decide, main_halts_on_platform_error 1 (by decide)⟩

/-! ## Watchdog heartbeat -/

/-- On values in range, `u32sub` is subtraction with wrap-around at 2^32. -/
theorem u32sub_eq (a b : Nat) (ha : a < UINT32_MODULUS) (hb : b < UINT32_MODULUS) :
    u32sub a b = if b ≤ a then a - b else a + UINT32_MODULUS - b := by
  unfold u32sub UINT32_MODULUS at *
  split <;> omega

theorem petCount_emit (e : Event) (s : SystemState) :
    petCount (emit e s) = petCount s + if e = Event.call Fn.watchdogReset then 1 else 0 := by
  simp only [petCount, emit, List.count_append, List.count_singleton, beq_iff_eq]

theorem idleHook_tick (b : BuildConfig) (tick : Nat) (s : SystemState) :
    (vApplicationIdleHook b tick s).tickOfLatestWatchdogReset =
      if u32sub (tick % UINT32_MODULUS) s.tickOfLatestWatchdogReset
          > b.M2T b.WATCHDOG_RESET_PERIOD_MS % UINT32_MODULUS
      then tick % UINT32_MODULUS else s.tickOfLatestWatchdogReset := by
  by_cases hd : u32sub (tick % UINT32_MODULUS) s.tickOfLatestWatchdogReset
      > b.M2T b.WATCHDOG_RESET_PERIOD_MS % UINT32_MODULUS <;>
    cases hb : b.DEBUG <;>
    simp only [vApplicationIdleHook, hd, hb, emit, if_true, if_false, Bool.false_eq_true]

theorem idleHook_petCount (b : BuildConfig) (tick : Nat) (s : SystemState) :
    petCount (vApplicationIdleHook b tick s) =
      petCount s +
        if u32sub (tick % UINT32_MODULUS) s.tickOfLatestWatchdogReset
            > b.M2T b.WATCHDOG_RESET_PERIOD_MS % UINT32_MODULUS
        then 1 else 0 := by
  by_cases hd : u32sub (tick % UINT32_MODULUS) s.tickOfLatestWatchdogReset
      > b.M2T b.WATCHDOG_RESET_PERIOD_MS % UINT32_MODULUS <;>
    cases hb : b.DEBUG <;>
    simp only [vApplicationIdleHook, hd, hb, petCount_emit, if_true, if_false,
      Bool.false_eq_true] <;>
    simp [petCount]

theorem petTicks_lt (b : BuildConfig) (ticks : List Nat) :
    ∀ (s : SystemState), ∀ t ∈ petTicks b ticks s, t < 4294967296 := by
  induction ticks with
  | nil => intro s t ht; simp [petTicks] at ht
  | cons tick ticks ih =>
    intro s t ht
    simp only [petTicks, List.mem_append] at ht
    rcases ht with h | h
    · split at h
      · simp only [List.mem_singleton] at h
        subst h
        exact Nat.mod_lt _ (by decide)
      · simp at h
    · exact ih _ t h

theorem petTicks_chain (b : BuildConfig) (ticks : List Nat) :
    ∀ s : SystemState,
      List.Chain (fun p q => u32sub q p > b.M2T b.WATCHDOG_RESET_PERIOD_MS % UINT32_MODULUS)
        s.tickOfLatestWatchdogReset (petTicks b ticks s) := by
  induction ticks with
  | nil => intro s; exact List.Chain.nil
  | cons tick ticks ih =>
    intro s
    have hT := idleHook_tick b tick s
    have hC := idleHook_petCount b tick s
    have hI := ih (vApplicationIdleHook b tick s)
    by_cases hd : u32sub (tick % UINT32_MODULUS) s.tickOfLatestWatchdogReset
        > b.M2T b.WATCHDOG_RESET_PERIOD_MS % UINT32_MODULUS
    · rw [if_pos hd] at hT hC
      rw [hT] at hI
      have hlt : petCount s < petCount (vApplicationIdleHook b tick s) := by omega
      simp only [petTicks, if_pos hlt, List.singleton_append]
      exact List.Chain.cons hd hI
    · rw [if_neg hd] at hT hC
      rw [hT] at hI
      have hlt : ¬ petCount s < petCount (vApplicationIdleHook b tick s) := by omega
      simp only [petTicks, if_neg hlt, List.nil_append]
      exact hI

/-- The value of `u32sub` is the integer difference reduced modulo 2^32. -/
theorem u32sub_int (a b : Nat) :
    ((u32sub a b : Nat) : Int) = ((a : Int) - (b : Int)) % 4294967296 := by
  unfold u32sub UINT32_MODULUS
  omega

theorem u32sub_gt_iff (tick last period : Nat) :
    u32sub (tick % UINT32_MODULUS) last > period
      ↔ ((tick : Int) - (last : Int)) % 4294967296 > (period : Int) := by
  have h := u32sub_int (tick % UINT32_MODULUS) last
  unfold UINT32_MODULUS at h ⊢
  omega

/-- Claim C8.  `vApplicationIdleHook` pets the watchdog exactly when the difference
`tickCount - tickOfLatestWatchdogReset`, taken as an integer and reduced modulo 2^32
(unsigned 32-bit arithmetic), exceeds `M2T(WATCHDOG_RESET_PERIOD_MS)`; it then stores
`tickCount` (the tick modulo 2^32) in `tickOfLatestWatchdogReset` and otherwise leaves it
alone.  Hence, over any sequence of invocations, each pet tick exceeds the one before it
(the first: the stored tick of the starting state) by more than the reset period, modulo
2^32.  In a release build with an 80-tick period: after a pet at tick 4294967290 the hook
does not pet at tick 10 (wrapped difference 16) and pets at tick 75 (wrapped difference
81). -/
theorem idleHook_pets_at_most_once_per_period (b : BuildConfig) (ticks : List Nat)
    (tick : Nat) (s : SystemState) :
    petCount (vApplicationIdleHook b tick s) =
        petCount s +
          (if ((tick : Int) - (s.tickOfLatestWatchdogReset : Int)) % 4294967296
              > ((b.M2T b.WATCHDOG_RESET_PERIOD_MS % 4294967296 : Nat) : Int)
           then 1 else 0)
    ∧ (vApplicationIdleHook b tick s).tickOfLatestWatchdogReset =
        (if ((tick : Int) - (s.tickOfLatestWatchdogReset : Int)) % 4294967296
            > ((b.M2T b.WATCHDOG_RESET_PERIOD_MS % 4294967296 : Nat) : Int)
         then tick % 4294967296 else s.tickOfLatestWatchdogReset)
    ∧ List.Chain
        (fun p q : Nat => ((q : Int) - (p : Int)) % 4294967296
          > ((b.M2T b.WATCHDOG_RESET_PERIOD_MS % 4294967296 : Nat) : Int))
        s.tickOfLatestWatchdogReset (petTicks b ticks s)
    ∧ (∀ t ∈ petTicks b ticks s, t < 4294967296)
    ∧ petTicks releaseBuild [4294967290, 10, 50, 75, 155, 156] (boot releaseBuild)
        = [4294967290, 75, 156] := by
  have hiff := u32sub_gt_iff tick s.tickOfLatestWatchdogReset
    (b.M2T b.WATCHDOG_RESET_PERIOD_MS % UINT32_MODULUS)
  have hM : UINT32_MODULUS = 4294967296 := rfl
  refine ⟨?_, ?_, ?_, ?_, ?_⟩
  · rw [idleHook_petCount]
    by_cases hc : u32sub (tick % UINT32_MODULUS) s.tickOfLatestWatchdogReset
        > b.M2T b.WATCHDOG_RESET_PERIOD_MS % UINT32_MODULUS
    · rw [if_pos hc, if_pos (by rw [← hM]; exact hiff.mp hc)]
    · rw [if_neg hc, if_neg (by rw [← hM]; exact fun h => hc (hiff.mpr h))]
  · rw [idleHook_tick]
    by_cases hc : u32sub (tick % UINT32_MODULUS) s.tickOfLatestWatchdogReset
        > b.M2T b.WATCHDOG_RESET_PERIOD_MS % UINT32_MODULUS
    · rw [if_pos hc, if_pos (by rw [← hM]; exact hiff.mp hc)]
      rfl
    · rw [if_neg hc, if_neg (by rw [← hM]; exact fun h => hc (hiff.mpr h))]
  · refine List.Chain.imp ?_ (petTicks_chain b ticks s)
    intro p q hpq
    have h := u32sub_int q p
    have hpq' : u32sub q p > b.M2T b.WATCHDOG_RESET_PERIOD_MS % 4294967296 := hpq
    omega
  · intro t ht
    exact petTicks_lt b ticks s t ht
  · decide

/-! ## The start gate -/

theorem systemInit_of_isInit (b : BuildConfig) (s : SystemState) (h : s.isInit = true) :
    systemInit b s = emit (.call .systemInit) s := by
  simp [systemInit, emit, h]

theorem systemInit_of_not_isInit (b : BuildConfig) (s : SystemState) (h : s.isInit = false) :
    (systemInit b s).canStartMutex = some Mutex.held ∧ (systemInit b s).isInit = true := by
  cases h2 : b.APP_ENABLED <;> cases h3 : b.V_PRODUCTION_RELEASE <;>
    simp [systemInit, emit, h, h2, h3]

theorem systemInit_grows (b : BuildConfig) (s : SystemState) :
    s.trace <+: (systemInit b s).trace := by
  refine ⟨(systemInit b s).trace.drop s.trace.length, ?_⟩
  cases h1 : s.isInit <;> cases h2 : b.APP_ENABLED <;> cases h3 : b.V_PRODUCTION_RELEASE <;>
    simp [systemInit, emit, h1, h2, h3]

theorem systemStart_canStartMutex (b : BuildConfig) (s : SystemState) :
    (systemStart b s).canStartMutex = xSemaphoreGive s.canStartMutex := by
  cases h : b.DEBUG <;> simp [systemStart, emit, h]

theorem systemStart_isInit (b : BuildConfig) (s : SystemState) :
    (systemStart b s).isInit = s.isInit := by
  cases h : b.DEBUG <;> simp [systemStart, emit, h]

theorem systemStart_trace (b : BuildConfig) (s : SystemState) :
    (systemStart b s).trace
      = s.trace ++ Event.call Fn.systemStart ::
          (if b.DEBUG then [] else [Event.call Fn.watchdogInit]) := by
  cases h : b.DEBUG <;> simp [systemStart, emit, h]

theorem idleHook_canStartMutex (b : BuildConfig) (tick : Nat) (s : SystemState) :
    (vApplicationIdleHook b tick s).canStartMutex = s.canStartMutex
    ∧ (vApplicationIdleHook b tick s).isInit = s.isInit := by
  unfold vApplicationIdleHook
  cases b.DEBUG <;> simp only [] <;> split_ifs <;> simp_all [emit]

theorem idleHook_grows (b : BuildConfig) (tick : Nat) (s : SystemState) :
    s.trace <+: (vApplicationIdleHook b tick s).trace := by
  refine ⟨(vApplicationIdleHook b tick s).trace.drop s.trace.length, ?_⟩
  unfold vApplicationIdleHook
  cases b.DEBUG <;> simp only [] <;> split_ifs <;> simp_all [emit]

theorem systemWaitStart_eq_some (s s' : SystemState) (h : systemWaitStart s = some s') :
    s.isInit = true ∧ s.canStartMutex = some Mutex.available ∧ s' = s := by
  unfold systemWaitStart at h
  cases hi : s.isInit
  · simp [hi] at h
  · cases hm : s.canStartMutex with
    | none => simp [hi, hm] at h
    | some m =>
      cases m
      · simp [hi, hm] at h
      · simp [hi, hm, xSemaphoreGive] at h
        refine ⟨rfl, rfl, ?_⟩
        rw [← h]
        cases s
        simp_all

theorem systemWaitStart_of_released (s : SystemState) (hi : s.isInit = true)
    (hm : s.canStartMutex = some Mutex.available) : systemWaitStart s = some s := by
  cases s
  simp_all [systemWaitStart, xSemaphoreGive]

theorem exec_grows (b : BuildConfig) (op : Op) (s : SystemState) :
    s.trace <+: (exec b op s).trace := by
  cases op with
  | systemInit => exact systemInit_grows b s
  | systemStart => exact ⟨_, (systemStart_trace b s).symm⟩
  | systemWaitStart =>
    cases h : systemWaitStart s with
    | none => simp [exec, h]
    | some s' =>
      obtain ⟨_, _, rfl⟩ := systemWaitStart_eq_some s s' h
      simp [exec, h]
  | systemSetArmed v => exact List.prefix_refl _
  | systemSetCanFly v => exact List.prefix_refl _
  | vApplicationIdleHook tick => exact idleHook_grows b tick s

/-- An operation keeps a released gate released. -/
theorem exec_keeps_released (b : BuildConfig) (op : Op) (s : SystemState)
    (hi : s.isInit = true) (hm : s.canStartMutex = some Mutex.available) :
    (exec b op s).isInit = true ∧ (exec b op s).canStartMutex = some Mutex.available := by
  cases op with
  | systemInit =>
    simp only [exec]
    rw [systemInit_of_isInit b s hi]
    exact ⟨hi, hm⟩
  | systemStart =>
    simp only [exec]
    rw [systemStart_isInit, systemStart_canStartMutex, hm]
    exact ⟨hi, rfl⟩
  | systemWaitStart =>
    simp only [exec]
    rw [systemWaitStart_of_released s hi hm]
    exact ⟨hi, hm⟩
  | systemSetArmed v => exact ⟨hi, hm⟩
  | systemSetCanFly v => exact ⟨hi, hm⟩
  | vApplicationIdleHook tick =>
    simp only [exec]
    rw [(idleHook_canStartMutex b tick s).1, (idleHook_canStartMutex b tick s).2]
    exact ⟨hi, hm⟩

theorem run_keeps_released (b : BuildConfig) (ops : List Op) :
    ∀ s : SystemState, s.isInit = true → s.canStartMutex = some Mutex.available →
      (run b ops s).isInit = true ∧ (run b ops s).canStartMutex = some Mutex.available := by
  induction ops with
  | nil => intro s hi hm; exact ⟨hi, hm⟩
  | cons op ops ih =>
    intro s hi hm
    have h := exec_keeps_released b op s hi hm
    exact ih (exec b op s) h.1 h.2

/-- What holds of the gate in every state: the mutex exists only once `isInit` is set, and
it is available only once `systemStart` has been called. -/
theorem exec_gate_invariant (b : BuildConfig) (op : Op) (s : SystemState)
    (h1 : s.canStartMutex ≠ none → s.isInit = true)
    (h2 : s.canStartMutex = some Mutex.available → Event.call Fn.systemStart ∈ s.trace) :
    ((exec b op s).canStartMutex ≠ none → (exec b op s).isInit = true)
    ∧ ((exec b op s).canStartMutex = some Mutex.available
        → Event.call Fn.systemStart ∈ (exec b op s).trace) := by
  have hg := exec_grows b op s
  cases op with
  | systemInit =>
    simp only [exec] at hg ⊢
    cases hi : s.isInit
    · have h := systemInit_of_not_isInit b s hi
      rw [h.1, h.2]
      simp
    · rw [systemInit_of_isInit b s hi]
      refine ⟨fun _ => hi, fun hm => ?_⟩
      rw [emit_trace]
      exact List.mem_append_left _ (h2 hm)
  | systemStart =>
    simp only [exec]
    rw [systemStart_isInit, systemStart_canStartMutex, systemStart_trace]
    refine ⟨fun hm => h1 ?_, fun _ => by simp⟩
    intro hn
    rw [hn] at hm
    exact hm rfl
  | systemWaitStart =>
    cases h : systemWaitStart s with
    | none => simpa [exec, h] using And.intro h1 h2
    | some s' =>
      obtain ⟨_, _, rfl⟩ := systemWaitStart_eq_some s s' h
      simpa [exec, h] using And.intro h1 h2
  | systemSetArmed v => exact ⟨h1, h2⟩
  | systemSetCanFly v => exact ⟨h1, h2⟩
  | vApplicationIdleHook tick =>
    simp only [exec] at hg ⊢
    rw [(idleHook_canStartMutex b tick s).1, (idleHook_canStartMutex b tick s).2]
    exact ⟨h1, fun hm => hg.subset (h2 hm)⟩

theorem run_gate_invariant (b : BuildConfig) (ops : List Op) :
    ∀ s : SystemState,
      (s.canStartMutex ≠ none → s.isInit = true) →
      (s.canStartMutex = some Mutex.available → Event.call Fn.systemStart ∈ s.trace) →
      ((run b ops s).canStartMutex ≠ none → (run b ops s).isInit = true)
      ∧ ((run b ops s).canStartMutex = some Mutex.available
          → Event.call Fn.systemStart ∈ (run b ops s).trace) := by
  induction ops with
  | nil => intro s h1 h2; exact ⟨h1, h2⟩
  | cons op ops ih =>
    intro s h1 h2
    have h := exec_gate_invariant b op s h1 h2
    exact ih (exec b op s) h.1 h.2

theorem boot_gate_invariant (b : BuildConfig) (ops : List Op) :
    ((run b ops (boot b)).canStartMutex ≠ none → (run b ops (boot b)).isInit = true)
    ∧ ((run b ops (boot b)).canStartMutex = some Mutex.available
        → Event.call Fn.systemStart ∈ (run b ops (boot b)).trace) :=
  run_gate_invariant b ops (boot b) (fun h => absurd rfl h) (fun h => by simp [boot] at h)

/-- Claim C5.  In a state reached from power-on by any sequence of the module's
operations, a `systemWaitStart` that completes finds that `systemStart` has been called
before; it leaves the mutex available, and from then on, whatever operations follow, a
`systemWaitStart` completes.  Before anything has run, `systemWaitStart` cannot
complete. -/
theorem startGate_blocks_until_release (b : BuildConfig) (ops : List Op)
    (h : (systemWaitStart (run b ops (boot b))).isSome = true) :
    Event.call Fn.systemStart ∈ (run b ops (boot b)).trace
    ∧ (exec b Op.systemWaitStart (run b ops (boot b))).canStartMutex = some Mutex.available
    ∧ (∀ later : List Op,
        (systemWaitStart
          (run b later (exec b Op.systemWaitStart (run b ops (boot b))))).isSome = true)
    ∧ systemWaitStart (boot b) = none := by
  obtain ⟨s', hs'⟩ := Option.isSome_iff_exists.mp h
  obtain ⟨hi, hm, rfl⟩ := systemWaitStart_eq_some _ _ hs'
  have hx : exec b Op.systemWaitStart (run b ops (boot b)) = run b ops (boot b) := by
    simp [exec, hs']
  rw [hx]
  refine ⟨(boot_gate_invariant b ops).2 hm, hm, fun later => ?_, rfl⟩
  have hk := run_keeps_released b later _ hi hm
  rw [systemWaitStart_of_released _ hk.1 hk.2]
  rfl

theorem startGate_blocks_until_release_witness :
    (systemWaitStart
        (run releaseBuild [Op.systemInit, Op.systemStart] (boot releaseBuild))).isSome = true
    ∧ Event.call Fn.systemStart
        ∈ (run releaseBuild [Op.systemInit, Op.systemStart] (boot releaseBuild)).trace
    ∧ (exec releaseBuild Op.systemWaitStart
        (run releaseBuild [Op.systemInit, Op.systemStart] (boot releaseBuild))).canStartMutex
        = some Mutex.available
    ∧ (∀ later : List Op,
        (systemWaitStart
          (run releaseBuild later (exec releaseBuild Op.systemWaitStart
            (run releaseBuild [Op.systemInit, Op.systemStart]
              (boot releaseBuild))))).isSome = true)
    ∧ systemWaitStart (boot releaseBuild) = none :=
  ⟨by rfl, startGate_blocks_until_release releaseBuild [Op.systemInit, Op.systemStart] (by rfl)⟩

/-- Claim C7.  Once the gate is available in a state reached from power-on, every further
sequence of the module's operations leaves it available.  A `systemInit` repeated when
`isInit` is set leaves the mutex as it is, and a second `systemStart` leaves the mutex as
the first one left it. -/
theorem release_is_monotonic (b : BuildConfig) (ops later : List Op)
    (h : (run b ops (boot b)).canStartMutex = some Mutex.available) :
    (run b later (run b ops (boot b))).canStartMutex = some Mutex.available
    ∧ (∀ op : Op, (exec b op (run b ops (boot b))).canStartMutex = some Mutex.available)
    ∧ (∀ s : SystemState, s.isInit = true →
        (systemInit b s).canStartMutex = s.canStartMutex)
    ∧ (∀ s : SystemState,
        (systemStart b (systemStart b s)).canStartMutex = (systemStart b s).canStartMutex) := by
  have hi : (run b ops (boot b)).isInit = true :=
    (boot_gate_invariant b ops).1 (by rw [h]; simp)
  refine ⟨(run_keeps_released b later _ hi h).2, fun op => (exec_keeps_released b op _ hi h).2,
    fun s hs => ?_, fun s => ?_⟩
  · rw [systemInit_of_isInit b s hs]
    rfl
  · rw [systemStart_canStartMutex, systemStart_canStartMutex]
    cases s.canStartMutex <;> rfl

theorem release_is_monotonic_witness :
    (run releaseBuild [Op.systemInit, Op.systemStart] (boot releaseBuild)).canStartMutex
        = some Mutex.available
    ∧ (run releaseBuild
        [Op.systemInit, Op.systemWaitStart, Op.systemStart, Op.vApplicationIdleHook 100]
        (run releaseBuild [Op.systemInit, Op.systemStart] (boot releaseBuild))).canStartMutex
        = some Mutex.available
    ∧ (∀ op : Op,
        (exec releaseBuild op
          (run releaseBuild [Op.systemInit, Op.systemStart]
            (boot releaseBuild))).canStartMutex = some Mutex.available)
    ∧ (∀ s : SystemState, s.isInit = true →
        (systemInit releaseBuild s).canStartMutex = s.canStartMutex)
    ∧ (∀ s : SystemState,
        (systemStart releaseBuild (systemStart releaseBuild s)).canStartMutex
          = (systemStart releaseBuild s).canStartMutex) :=
  ⟨by rfl,
   release_is_monotonic releaseBuild [Op.systemInit, Op.systemStart]
     [Op.systemInit, Op.systemWaitStart, Op.systemStart, Op.vApplicationIdleHook 100]
     (by rfl)⟩

/-! ## The override loop -/

theorem applyWrites_emit (e : Event) (ws : List ExternalWrite) :
    ∀ s : SystemState, applyWrites ws (emit e s) = emit e (applyWrites ws s) := by
  induction ws with
  | nil => intro s; rfl
  | cons w ws ih =>
    intro s
    have hw : w.apply (emit e s) = emit e (w.apply s) := by cases w <;> rfl
    simp only [applyWrites, List.foldl_cons] at ih ⊢
    rw [hw]
    exact ih (w.apply s)

theorem applyWrites_keeps (ws : List ExternalWrite) :
    ∀ s : SystemState,
      (applyWrites ws s).trace = s.trace
      ∧ (applyWrites ws s).canStartMutex = s.canStartMutex
      ∧ (applyWrites ws s).isInit = s.isInit
      ∧ (applyWrites ws s).commIsInit = s.commIsInit := by
  induction ws with
  | nil => intro s; exact ⟨rfl, rfl, rfl, rfl⟩
  | cons w ws ih =>
    intro s
    have hw : (w.apply s).trace = s.trace ∧ (w.apply s).canStartMutex = s.canStartMutex
        ∧ (w.apply s).isInit = s.isInit ∧ (w.apply s).commIsInit = s.commIsInit := by
      cases w <;> exact ⟨rfl, rfl, rfl, rfl⟩
    have h := ih (w.apply s)
    simp only [applyWrites, List.foldl_cons] at h ⊢
    rw [h.1, h.2.1, h.2.2.1, h.2.2.2]
    exact hw

theorem applyWrites_append_forceArm (ws : List ExternalWrite) (v : Bool) (s : SystemState) :
    (applyWrites (ws ++ [ExternalWrite.forceArm v]) s).selftestPassed
      = (applyWrites ws s).selftestPassed := by
  simp [applyWrites, List.foldl_append, ExternalWrite.apply]

theorem overridePoll_of_flag (b : BuildConfig) (ws : List ExternalWrite) (s : SystemState)
    (h : (applyWrites ws s).selftestPassed = true) :
    overridePoll b ws s =
      (systemStart b (emit (.DEBUG_PRINT "Start forced.\n")
        (emit (.vTaskDelay (b.M2T 2000)) (emit (.ledseqRun .seq_testFailed)
          (applyWrites ws s)))), true) := by
  simp only [overridePoll, applyWrites_emit, emit_selftestPassed, h, if_true]

theorem overridePoll_of_not_flag (b : BuildConfig) (ws : List ExternalWrite) (s : SystemState)
    (h : (applyWrites ws s).selftestPassed = false) :
    overridePoll b ws s =
      (emit (.vTaskDelay (b.M2T 2000)) (emit (.ledseqRun .seq_testFailed)
        (applyWrites ws s)), false) := by
  simp only [overridePoll, applyWrites_emit, emit_selftestPassed, h, Bool.false_eq_true,
    if_false]

/-- Claim C3, as amended.  A pass through the override loop calls `systemStart` (which
gives the start mutex) and leaves the loop when the flag `selftestPassed` reads true after
the delay, and stays in the loop without calling `systemStart` when it reads false; the
flag `forceArm` is not read, so a write to it changes neither outcome.  No self-test is
invoked in either case. -/
theorem overridePoll_leaves_on_selftestPassed (b : BuildConfig) (ws : List ExternalWrite)
    (s : SystemState) (h : (applyWrites ws s).selftestPassed = true) :
    (overridePoll b ws s).2 = true
    ∧ since s (overridePoll b ws s).1 =
        [Event.ledseqRun LedSeq.seq_testFailed, Event.vTaskDelay (b.M2T 2000),
         Event.DEBUG_PRINT "Start forced.\n", Event.call Fn.systemStart]
        ++ (if b.DEBUG then [] else [Event.call Fn.watchdogInit])
    ∧ (overridePoll b ws s).1.canStartMutex = xSemaphoreGive s.canStartMutex
    ∧ (∀ (v : Bool) (ws' : List ExternalWrite) (s' : SystemState),
        (overridePoll b (ws' ++ [ExternalWrite.forceArm v]) s').2 = (overridePoll b ws' s').2)
    ∧ (∀ (ws' : List ExternalWrite) (s' : SystemState),
        (applyWrites ws' s').selftestPassed = false →
          (overridePoll b ws' s').2 = false
          ∧ since s' (overridePoll b ws' s').1 =
              [Event.ledseqRun LedSeq.seq_testFailed, Event.vTaskDelay (b.M2T 2000)]
          ∧ (overridePoll b ws' s').1.canStartMutex = s'.canStartMutex)
    ∧ (∀ (ws' : List ExternalWrite) (s' : SystemState),
        testsInvoked (since s' (overridePoll b ws' s').1) = []) := by
  have hyes : ∀ (ws' : List ExternalWrite) (s' : SystemState),
      (applyWrites ws' s').selftestPassed = true →
        since s' (overridePoll b ws' s').1 =
          [Event.ledseqRun LedSeq.seq_testFailed, Event.vTaskDelay (b.M2T 2000),
           Event.DEBUG_PRINT "Start forced.\n", Event.call Fn.systemStart]
          ++ (if b.DEBUG then [] else [Event.call Fn.watchdogInit]) := by
    intro ws' s' h'
    rw [overridePoll_of_flag b ws' s' h']
    apply since_append
    simp [systemStart_trace, emit_trace, (applyWrites_keeps ws' s').1]
  have hno : ∀ (ws' : List ExternalWrite) (s' : SystemState),
      (applyWrites ws' s').selftestPassed = false →
        since s' (overridePoll b ws' s').1 =
          [Event.ledseqRun LedSeq.seq_testFailed, Event.vTaskDelay (b.M2T 2000)] := by
    intro ws' s' h'
    rw [overridePoll_of_not_flag b ws' s' h']
    apply since_append
    simp [emit_trace, (applyWrites_keeps ws' s').1]
  refine ⟨?_, hyes ws s h, ?_, ?_, ?_, ?_⟩
  · rw [overridePoll_of_flag b ws s h]
  · rw [overridePoll_of_flag b ws s h]
    simp [systemStart_canStartMutex, emit_canStartMutex, (applyWrites_keeps ws s).2.1]
  · intro v ws' s'
    have hf := applyWrites_append_forceArm ws' v s'
    cases hc : (applyWrites ws' s').selftestPassed
    · rw [overridePoll_of_not_flag b ws' s' hc, overridePoll_of_not_flag b _ s' (hf.trans hc)]
    · rw [overridePoll_of_flag b ws' s' hc, overridePoll_of_flag b _ s' (hf.trans hc)]
  · intro ws' s' h'
    refine ⟨?_, hno ws' s' h', ?_⟩
    · rw [overridePoll_of_not_flag b ws' s' h']
    · rw [overridePoll_of_not_flag b ws' s' h']
      simp [emit_canStartMutex, (applyWrites_keeps ws' s').2.1]
  · intro ws' s'
    cases hc : (applyWrites ws' s').selftestPassed
    · rw [hno ws' s' hc]
      rfl
    · rw [hyes ws' s' hc]
      cases b.DEBUG <;> rfl


theorem overridePoll_leaves_on_selftestPassed_witness :
    (applyWrites [ExternalWrite.selftestPassed true] inOverrideLoop).selftestPassed = true
    ∧ (overridePoll releaseBuild [ExternalWrite.selftestPassed true] inOverrideLoop).2 = true
    ∧ since inOverrideLoop
        (overridePoll releaseBuild [ExternalWrite.selftestPassed true] inOverrideLoop).1 =
        [Event.ledseqRun LedSeq.seq_testFailed, Event.vTaskDelay (releaseBuild.M2T 2000),
         Event.DEBUG_PRINT "Start forced.\n", Event.call Fn.systemStart]
        ++ (if releaseBuild.DEBUG then [] else [Event.call Fn.watchdogInit])
    ∧ (overridePoll releaseBuild [ExternalWrite.selftestPassed true]
        inOverrideLoop).1.canStartMutex = xSemaphoreGive inOverrideLoop.canStartMutex :=
  have h := overridePoll_leaves_on_selftestPassed releaseBuild
    [ExternalWrite.selftestPassed true] inOverrideLoop (by rfl)
  ⟨by rfl, h.1, h.2.1, h.2.2.1⟩

/-! ## Traces of the phases of `systemTask` -/

theorem ite_emit_trace (p : Prop) [Decidable p] (e : Event) (s : SystemState) :
    (if p then emit e s else s).trace = s.trace ++ (if p then [e] else []) := by
  split <;> simp [emit]

theorem ite_emit_isInit (p : Prop) [Decidable p] (e : Event) (s : SystemState) :
    (if p then emit e s else s).isInit = s.isInit := by
  split <;> rfl

theorem ite_emit_commIsInit (p : Prop) [Decidable p] (e : Event) (s : SystemState) :
    (if p then emit e s else s).commIsInit = s.commIsInit := by
  split <;> rfl

theorem systemInit_trace (b : BuildConfig) (s : SystemState) :
    (systemInit b s).trace = s.trace ++ Event.call Fn.systemInit ::
      (if s.isInit then []
       else
        [Event.call Fn.sysLoadInit, Event.call Fn.debugInit, Event.call Fn.crtpInit,
         Event.call Fn.consoleInit, Event.DEBUG_PRINT "----------------------------\n",
         Event.call Fn.platformConfigGetDeviceTypeName,
         Event.DEBUG_PRINT "%s is up and running!\n",
         Event.DEBUG_PRINT
           (if b.V_PRODUCTION_RELEASE then "Production release %s\n"
            else "Build %s:%s (%s) %s\n"),
         Event.DEBUG_PRINT "I am 0x%08X%08X%08X and I have %dKB of flash!\n",
         Event.call Fn.configblockInit, Event.DEBUG_PRINT "config init\n",
         Event.call Fn.storageInit, Event.call Fn.workerInit, Event.call Fn.adcInit,
         Event.call Fn.ledseqInit, Event.call Fn.pmInit, Event.call Fn.buzzerInit,
         Event.call Fn.peerLocalizationInit]
        ++ (if b.APP_ENABLED then [Event.call Fn.appInit] else [])) := by
  cases h1 : s.isInit <;> cases h2 : b.APP_ENABLED <;> cases h3 : b.V_PRODUCTION_RELEASE <;>
    simp [systemInit, emit, h1, h2, h3]

theorem systemInit_commIsInit (b : BuildConfig) (s : SystemState) :
    (systemInit b s).commIsInit = s.commIsInit := by
  cases h1 : s.isInit <;> cases h2 : b.APP_ENABLED <;> cases h3 : b.V_PRODUCTION_RELEASE <;>
    simp [systemInit, emit, h1, h2, h3]

theorem commInit_trace (c : Collaborators) (s : SystemState) :
    (commInit c s).trace = s.trace ++ Event.call Fn.commInit ::
      (if s.commIsInit then []
       else
        [Event.call Fn.uartslkInit, Event.call Fn.radiolinkInit,
         Event.call Fn.radiolinkGetLink, Event.call Fn.crtpSetLink,
         Event.call Fn.crtpserviceInit, Event.call Fn.platformserviceInit,
         Event.call Fn.logInit, Event.call Fn.paramInit, Event.call Fn.locSrvInit,
         Event.test Test.commTest,
         Event.test Test.radiolinkTest,
         Event.returned Test.radiolinkTest (c.selfTest Test.radiolinkTest),
         Event.DEBUG_PRINT "Running commTest:\n%d\n",
         Event.test Test.crtpTest, Event.returned Test.crtpTest (c.selfTest Test.crtpTest),
         Event.DEBUG_PRINT "%d\n",
         Event.test Test.crtpserviceTest,
         Event.returned Test.crtpserviceTest (c.selfTest Test.crtpserviceTest),
         Event.DEBUG_PRINT "%d\n",
         Event.test Test.platformserviceTest,
         Event.returned Test.platformserviceTest (c.selfTest Test.platformserviceTest),
         Event.DEBUG_PRINT "%d\n",
         Event.test Test.consoleTest,
         Event.returned Test.consoleTest (c.selfTest Test.consoleTest),
         Event.DEBUG_PRINT "%d\n",
         Event.test Test.paramTest, Event.returned Test.paramTest (c.selfTest Test.paramTest),
         Event.DEBUG_PRINT "%d\n",
         Event.returned Test.commTest
           (c.selfTest Test.radiolinkTest && c.selfTest Test.crtpTest
             && c.selfTest Test.crtpserviceTest && c.selfTest Test.platformserviceTest
             && c.selfTest Test.consoleTest && c.selfTest Test.paramTest)]) := by
  cases h1 : s.commIsInit <;> simp [commInit, commTest, collaboratorTest, emit, h1]

theorem systemTask_init_grows (b : BuildConfig) (c : Collaborators) (s : SystemState) :
    (systemTask_init b c s).trace = s.trace ++ since s (systemTask_init b c s) := by
  cases h1 : c.deckGetRequiredLowInterferenceRadioMode <;>
  cases h2 : c.platformConfigPhysicalLayoutAntennasAreClose <;>
    simp [since, systemTask_init, h1, h2, emit_trace, ite_emit_trace, systemInit_trace,
      commInit_trace]

theorem testsInvoked_append (l₁ l₂ : List Event) :
    testsInvoked (l₁ ++ l₂) = testsInvoked l₁ ++ testsInvoked l₂ := by
  simp [testsInvoked, List.filterMap_append]

theorem testsInvoked_ite (p : Prop) [Decidable p] (l₁ l₂ : List Event) :
    testsInvoked (if p then l₁ else l₂) = if p then testsInvoked l₁ else testsInvoked l₂ := by
  split <;> rfl

theorem testsInvoked_cons (e : Event) (l : List Event) :
    testsInvoked (e :: l) =
      (match e with
        | .test t => [t]
        | _ => []) ++ testsInvoked l := by
  cases e <;> simp [testsInvoked, List.filterMap_cons]

theorem testsInvoked_nil : testsInvoked [] = [] := rfl

theorem testsInvoked_init (b : BuildConfig) (c : Collaborators) (s : SystemState) :
    testsInvoked (since s (systemTask_init b c s))
      = if s.commIsInit then [] else Test.commTest :: commSubTests := by
  cases h1 : c.deckGetRequiredLowInterferenceRadioMode <;>
  cases h2 : c.platformConfigPhysicalLayoutAntennasAreClose <;>
  cases h3 : s.commIsInit <;>
    simp [since, systemTask_init, h1, h2, h3, emit_trace, ite_emit_trace, systemInit_trace,
      commInit_trace, systemInit_commIsInit, ite_emit_commIsInit, emit_commIsInit,
      ite_emit_isInit, emit_isInit, testsInvoked_append, testsInvoked_ite, testsInvoked_cons,
      testsInvoked_nil, commSubTests]

theorem systemInit_isInit (b : BuildConfig) (s : SystemState) :
    (systemInit b s).isInit = true := by
  cases h1 : s.isInit <;> cases h2 : b.APP_ENABLED <;> cases h3 : b.V_PRODUCTION_RELEASE <;>
    simp [systemInit, emit, h1, h2, h3]

theorem commInit_isInit (c : Collaborators) (s : SystemState) :
    (commInit c s).isInit = s.isInit ∧ (commInit c s).canStartMutex = s.canStartMutex := by
  cases h1 : s.commIsInit <;> simp [commInit, commTest, collaboratorTest, emit, h1]

theorem systemTask_init_isInit (b : BuildConfig) (c : Collaborators) (s : SystemState) :
    (systemTask_init b c s).isInit = true := by
  cases h1 : c.deckGetRequiredLowInterferenceRadioMode <;>
  cases h2 : c.platformConfigPhysicalLayoutAntennasAreClose <;>
    simp [systemTask_init, h1, h2, emit_isInit, ite_emit_isInit, systemInit_isInit,
      commInit_isInit]

theorem systemTask_init_calls (b : BuildConfig) (c : Collaborators) (s : SystemState) :
    Event.call Fn.systemInit ∈ since s (systemTask_init b c s)
    ∧ Event.call Fn.commInit ∈ since s (systemTask_init b c s)
    ∧ Event.call Fn.commanderInit ∈ since s (systemTask_init b c s)
    ∧ Event.call Fn.estimatorKalmanTaskInit ∈ since s (systemTask_init b c s)
    ∧ Event.call Fn.deckInit ∈ since s (systemTask_init b c s)
    ∧ Event.stabilizerInit c.deckGetRequiredEstimator ∈ since s (systemTask_init b c s)
    ∧ Event.call Fn.soundInit ∈ since s (systemTask_init b c s)
    ∧ Event.call Fn.memInit ∈ since s (systemTask_init b c s) := by
  cases h1 : c.deckGetRequiredLowInterferenceRadioMode <;>
  cases h2 : c.platformConfigPhysicalLayoutAntennasAreClose <;>
    simp [since, systemTask_init, h1, h2, emit_trace, ite_emit_trace, systemInit_trace,
      commInit_trace]

theorem systemTask_init_quiet (b : BuildConfig) (c : Collaborators) (s : SystemState) :
    Event.call Fn.systemStart ∉ since s (systemTask_init b c s)
    ∧ Event.call Fn.workerLoop ∉ since s (systemTask_init b c s) := by
  cases h1 : c.deckGetRequiredLowInterferenceRadioMode <;>
  cases h2 : c.platformConfigPhysicalLayoutAntennasAreClose <;>
    simp [since, systemTask_init, h1, h2, emit_trace, ite_emit_trace, systemInit_trace,
      commInit_trace]

theorem systemTest_snd (c : Collaborators) (s : SystemState) :
    (systemTest c s).2 = { s with trace := (systemTest c s).2.trace } := by
  simp [systemTest, collaboratorTest, emit]

theorem systemTask_selfTest_snd (c : Collaborators) (s : SystemState) :
    (systemTask_selfTest c s).2 = { s with trace := (systemTask_selfTest c s).2.trace } := by
  simp [systemTask_selfTest, systemTest, commTest, collaboratorTest, emit]

theorem systemTest_quiet (c : Collaborators) (s : SystemState) :
    Event.call Fn.systemStart ∉ since s (systemTest c s).2
    ∧ Event.call Fn.workerLoop ∉ since s (systemTest c s).2
    ∧ ∀ e ∈ since s (systemTest c s).2, isModuleInit e = false := by
  rw [since_append _ _ _ (systemTest_trace c s)]
  simp [isModuleInit]

theorem systemTask_selfTest_quiet (c : Collaborators) (s : SystemState) :
    Event.call Fn.systemStart ∉ since s (systemTask_selfTest c s).2
    ∧ Event.call Fn.workerLoop ∉ since s (systemTask_selfTest c s).2
    ∧ ∀ e ∈ since s (systemTask_selfTest c s).2, isModuleInit e = false := by
  simp [since, systemTask_selfTest, systemTest, commTest, collaboratorTest, emit,
    isModuleInit]

/-! ## The last part of `systemTask` -/

theorem systemTask_work_trace (s : SystemState) :
    (systemTask_work s).trace = s.trace ++
      [Event.call Fn.xPortGetFreeHeapSize, Event.DEBUG_PRINT "Free heap: %d bytes\n",
       Event.call Fn.workerLoop] := by
  simp [systemTask_work, emit]

theorem systemTask_work_canStartMutex (s : SystemState) :
    (systemTask_work s).canStartMutex = s.canStartMutex := rfl

theorem systemTask_start_pass (b : BuildConfig) (c : Collaborators)
    (polls : List (List ExternalWrite)) (s : SystemState) :
    systemTask_start b c polls true s =
      systemTask_work (emit (.ledseqRun .seq_testPassed) (emit (.ledseqRun .seq_alive)
        (emit .soundSetEffect_SND_STARTUP (systemStart b { s with selftestPassed := true })))) := by
  simp [systemTask_start]

theorem systemTask_start_fatal (b : BuildConfig) (c : Collaborators)
    (polls : List (List ExternalWrite)) (s : SystemState)
    (h : (systemTest c { s with selftestPassed := false }).1 = false) :
    systemTask_start b c polls false s =
      systemTask_work (emit (.ledSet .SYS_LED true) (emit (.call .ledInit)
        (systemTest c { s with selftestPassed := false }).2)) := by
  rcases hst : systemTest c { s with selftestPassed := false } with ⟨r, sR⟩
  rw [hst] at h
  simp only at h
  subst h
  simp [systemTask_start, hst]

theorem systemTask_start_loop (b : BuildConfig) (c : Collaborators)
    (polls : List (List ExternalWrite)) (s : SystemState)
    (h : (systemTest c { s with selftestPassed := false }).1 = true) :
    systemTask_start b c polls false s =
      if (overrideLoop b polls (systemTest c { s with selftestPassed := false }).2).2 then
        systemTask_work
          (overrideLoop b polls (systemTest c { s with selftestPassed := false }).2).1
      else (overrideLoop b polls (systemTest c { s with selftestPassed := false }).2).1 := by
  rcases hst : systemTest c { s with selftestPassed := false } with ⟨r, sR⟩
  rw [hst] at h
  simp only at h
  subst h
  rcases hl : overrideLoop b polls sR with ⟨sL, x⟩
  cases x <;> simp [systemTask_start, hst, hl]

theorem overrideLoop_spec (b : BuildConfig) (polls : List (List ExternalWrite)) :
    ∀ s : SystemState, ∃ evs : List Event,
      (overrideLoop b polls s).1.trace = s.trace ++ evs
      ∧ (∀ e ∈ evs, e ∈ [Event.ledseqRun LedSeq.seq_testFailed, Event.vTaskDelay (b.M2T 2000),
            Event.DEBUG_PRINT "Start forced.\n", Event.call Fn.systemStart,
            Event.call Fn.watchdogInit])
      ∧ ((overrideLoop b polls s).2 = true →
          Event.call Fn.systemStart ∈ evs
          ∧ (overrideLoop b polls s).1.canStartMutex = xSemaphoreGive s.canStartMutex)
      ∧ ((overrideLoop b polls s).2 = false →
          (overrideLoop b polls s).1.canStartMutex = s.canStartMutex)
      ∧ (polls ≠ [] →
          evs.take 2
            = [Event.ledseqRun LedSeq.seq_testFailed, Event.vTaskDelay (b.M2T 2000)]) := by
  induction polls with
  | nil =>
    intro s
    exact ⟨[], by simp [overrideLoop], by simp, by simp [overrideLoop],
      by simp [overrideLoop], by simp⟩
  | cons ws polls ih =>
    intro s
    cases hc : (applyWrites ws s).selftestPassed
    · have hp := overridePoll_of_not_flag b ws s hc
      have hl : overrideLoop b (ws :: polls) s
          = overrideLoop b polls (emit (.vTaskDelay (b.M2T 2000))
              (emit (.ledseqRun .seq_testFailed) (applyWrites ws s))) := by
        simp only [overrideLoop, hp]
      obtain ⟨evs, h1, h2, h3, h4, _⟩ := ih (emit (.vTaskDelay (b.M2T 2000))
        (emit (.ledseqRun .seq_testFailed) (applyWrites ws s)))
      refine ⟨[Event.ledseqRun LedSeq.seq_testFailed, Event.vTaskDelay (b.M2T 2000)] ++ evs,
        ?_, ?_, ?_, ?_, ?_⟩
      · rw [hl, h1]
        simp [emit_trace, (applyWrites_keeps ws s).1]
      · intro e he
        rcases List.mem_append.mp he with h | h
        · simp only [List.mem_cons, List.mem_singleton, List.not_mem_nil, or_false] at h ⊢
          rcases h with h | h <;> simp [h]
        · exact h2 e h
      · intro hx
        rw [hl] at hx ⊢
        have h := h3 hx
        refine ⟨List.mem_append_right _ h.1, ?_⟩
        rw [h.2]
        simp [emit_canStartMutex, (applyWrites_keeps ws s).2.1]
      · intro hx
        rw [hl] at hx ⊢
        rw [h4 hx]
        simp [emit_canStartMutex, (applyWrites_keeps ws s).2.1]
      · intro _
        rfl
    · have hp := overridePoll_of_flag b ws s hc
      have hl : overrideLoop b (ws :: polls) s
          = (systemStart b (emit (.DEBUG_PRINT "Start forced.\n")
              (emit (.vTaskDelay (b.M2T 2000)) (emit (.ledseqRun .seq_testFailed)
                (applyWrites ws s)))), true) := by
        simp only [overrideLoop, hp]
      refine ⟨[Event.ledseqRun LedSeq.seq_testFailed, Event.vTaskDelay (b.M2T 2000),
          Event.DEBUG_PRINT "Start forced.\n", Event.call Fn.systemStart]
          ++ (if b.DEBUG then [] else [Event.call Fn.watchdogInit]), ?_, ?_, ?_, ?_, ?_⟩
      · rw [hl]
        simp [systemStart_trace, emit_trace, (applyWrites_keeps ws s).1]
      · intro e he
        cases hd : b.DEBUG <;> simp [hd] at he <;> rcases he with h | h | h | h <;> simp [h]
      · intro _
        rw [hl]
        refine ⟨by simp, ?_⟩
        simp [systemStart_canStartMutex, emit_canStartMutex, (applyWrites_keeps ws s).2.1]
      · intro hx
        rw [hl] at hx
        simp at hx
      · intro _
        rfl


/-- Claim C3 fails as stated: `storageTest` has failed and `systemTask` is in its override
loop; `forceArm` is set to true during the delay, yet the pass through the loop does not
leave it and does not call `systemStart`; three such polls later the task is still polling
with the start mutex held. -/
theorem forceArm_does_not_leave_override_loop :
    (systemTask_selfTest storageBroken
        (systemTask_init releaseBuild storageBroken (boot releaseBuild))).1 = false
    ∧ (retest releaseBuild storageBroken (boot releaseBuild)).1 = true
    ∧ inOverrideLoop.selftestPassed = false
    ∧ inOverrideLoop.canStartMutex = some Mutex.held
    ∧ (applyWrites [ExternalWrite.forceArm true] inOverrideLoop).forceArm = true
    ∧ (overridePoll releaseBuild [ExternalWrite.forceArm true] inOverrideLoop).2 = false
    ∧ Event.call Fn.systemStart
        ∉ (overridePoll releaseBuild [ExternalWrite.forceArm true] inOverrideLoop).1.trace
    ∧ (overridePoll releaseBuild [ExternalWrite.forceArm true] inOverrideLoop).1.canStartMutex
        = some Mutex.held
    ∧ (overridePoll releaseBuild []
        (applyWrites [ExternalWrite.forceArm true] inOverrideLoop)).2 = false
    ∧ Event.call Fn.systemStart
        ∉ (systemTask releaseBuild storageBroken [[ExternalWrite.forceArm true], [], []]
            (boot releaseBuild)).trace
    ∧ Event.call Fn.workerLoop
        ∉ (systemTask releaseBuild storageBroken [[ExternalWrite.forceArm true], [], []]
            (boot releaseBuild)).trace := by
  refine ⟨by rfl, by rfl, by rfl, by rfl, by rfl, by rfl, by decide, by rfl, by rfl,
    by decide, by decide⟩


/-! ## `systemTask` as a whole -/

theorem since_grows (s s' : SystemState) (evs : List Event)
    (h : s'.trace = s.trace ++ evs) : s'.trace = s.trace ++ since s s' := by
  rw [since_append s s' evs h]
  exact h

theorem systemTask_eq (b : BuildConfig) (c : Collaborators) (polls : List (List ExternalWrite))
    (s : SystemState) :
    systemTask b c polls s
      = systemTask_start b c polls (aggregate b c s) (afterSelfTest b c s) := rfl

theorem systemInit_canStartMutex (b : BuildConfig) (s : SystemState) :
    (systemInit b s).canStartMutex
      = if s.isInit then s.canStartMutex else some Mutex.held := by
  cases h1 : s.isInit <;> cases h2 : b.APP_ENABLED <;> cases h3 : b.V_PRODUCTION_RELEASE <;>
    simp [systemInit, emit, h1, h2, h3]

theorem ite_emit_canStartMutex (p : Prop) [Decidable p] (e : Event) (s : SystemState) :
    (if p then emit e s else s).canStartMutex = s.canStartMutex := by
  split <;> rfl

theorem afterInit_boot_canStartMutex (b : BuildConfig) (c : Collaborators) :
    (afterInit b c (boot b)).canStartMutex = some Mutex.held := by
  cases h1 : c.deckGetRequiredLowInterferenceRadioMode <;>
  cases h2 : c.platformConfigPhysicalLayoutAntennasAreClose <;>
    simp [afterInit, systemTask_init, h1, h2, emit_canStartMutex, ite_emit_canStartMutex,
      systemInit_canStartMutex, commInit_isInit, emit_isInit, ite_emit_isInit, boot]

theorem afterSelfTest_fields (b : BuildConfig) (c : Collaborators) (s : SystemState) :
    (afterSelfTest b c s).isInit = true
    ∧ (afterSelfTest b c s).canStartMutex = (afterInit b c s).canStartMutex
    ∧ (afterSelfTest b c s).trace
        = (afterInit b c s).trace ++ since (afterInit b c s) (afterSelfTest b c s) := by
  refine ⟨?_, ?_, systemTask_selfTest_grows c _⟩
  · unfold afterSelfTest
    rw [systemTask_selfTest_snd]
    exact systemTask_init_isInit b c s
  · unfold afterSelfTest
    rw [systemTask_selfTest_snd]

theorem retest_fields (b : BuildConfig) (c : Collaborators) (s : SystemState) :
    (retest b c s).1 = (systemTest c (afterInit b c s)).1
    ∧ (retest b c s).2.canStartMutex = (afterInit b c s).canStartMutex
    ∧ (retest b c s).2.trace
        = (afterSelfTest b c s).trace ++ since (afterSelfTest b c s) (retest b c s).2 := by
  have hf := afterSelfTest_fields b c s
  refine ⟨?_, ?_, ?_⟩
  · unfold retest
    rw [systemTest_fst, systemTest_fst]
    simp only [hf.1]
    rw [show (afterInit b c s).isInit = true from systemTask_init_isInit b c s]
  · unfold retest
    rw [systemTest_canStartMutex]
    exact hf.2.1
  · exact since_grows _ _ _ (systemTest_trace c { afterSelfTest b c s with selftestPassed := false })

theorem retest_quiet (b : BuildConfig) (c : Collaborators) (s : SystemState) :
    Event.call Fn.systemStart ∉ since (afterSelfTest b c s) (retest b c s).2
    ∧ Event.call Fn.workerLoop ∉ since (afterSelfTest b c s) (retest b c s).2
    ∧ ∀ e ∈ since (afterSelfTest b c s) (retest b c s).2, isModuleInit e = false :=
  systemTest_quiet c { afterSelfTest b c s with selftestPassed := false }

/-- From power-on up to the `systemTest()` of the failure branch, `systemTask` calls neither
`systemStart` nor `workerLoop`. -/
theorem quiet_before_loop (b : BuildConfig) (c : Collaborators) :
    Event.call Fn.systemStart ∉ (retest b c (boot b)).2.trace
    ∧ Event.call Fn.workerLoop ∉ (retest b c (boot b)).2.trace := by
  have h1 : (afterInit b c (boot b)).trace = since (boot b) (afterInit b c (boot b)) := by
    have h := systemTask_init_grows b c (boot b)
    simpa [afterInit, boot] using h
  rw [(retest_fields b c (boot b)).2.2, (afterSelfTest_fields b c (boot b)).2.2, h1]
  simp only [List.mem_append, not_or]
  exact ⟨⟨⟨(systemTask_init_quiet b c (boot b)).1, (systemTask_selfTest_quiet c _).1⟩,
      (retest_quiet b c (boot b)).1⟩,
    ⟨⟨(systemTask_init_quiet b c (boot b)).2, (systemTask_selfTest_quiet c _).2.1⟩,
      (retest_quiet b c (boot b)).2.1⟩⟩

theorem aggregate_of_retest_false (b : BuildConfig) (c : Collaborators) (s : SystemState)
    (h : (retest b c s).1 = false) : aggregate b c s = false := by
  rw [(retest_fields b c s).1] at h
  unfold aggregate
  rw [systemTask_selfTest_fst, h]
  simp

/-- Claim C6, as amended.  When the aggregate is false and the `systemTest()` that
`systemTask` calls again in the failure branch returns true, `systemTask` enters the
override loop: each pass runs the test-failed LED sequence and delays `M2T(2000)` ticks,
and the task reaches `workerLoop` only after a call of `systemStart`, with the start mutex
available.  When that `systemTest()` returns false (the aggregate is then false), the task
does not enter the loop: it calls `ledInit`, sets `SYS_LED` and goes on to `workerLoop`
without any call of `systemStart`, the start mutex still held. -/
theorem aggregate_failure_enters_override_loop (b : BuildConfig) (c : Collaborators)
    (polls : List (List ExternalWrite))
    (hfail : aggregate b c (boot b) = false)
    (hsys : (retest b c (boot b)).1 = true) :
    systemTask b c polls (boot b) =
        (if (overrideLoop b polls (retest b c (boot b)).2).2 then
          systemTask_work (overrideLoop b polls (retest b c (boot b)).2).1
         else (overrideLoop b polls (retest b c (boot b)).2).1)
    ∧ (polls ≠ [] →
        (since (retest b c (boot b)).2 (systemTask b c polls (boot b))).take 2
          = [Event.ledseqRun LedSeq.seq_testFailed, Event.vTaskDelay (b.M2T 2000)])
    ∧ (Event.call Fn.workerLoop ∈ (systemTask b c polls (boot b)).trace →
        (∃ before : List Event,
          (systemTask b c polls (boot b)).trace =
            before ++ [Event.call Fn.xPortGetFreeHeapSize,
              Event.DEBUG_PRINT "Free heap: %d bytes\n", Event.call Fn.workerLoop]
          ∧ Event.call Fn.systemStart ∈ before)
        ∧ (systemTask b c polls (boot b)).canStartMutex = some Mutex.available)
    ∧ (∀ (c' : Collaborators) (polls' : List (List ExternalWrite)),
        (retest b c' (boot b)).1 = false →
          aggregate b c' (boot b) = false
          ∧ since (retest b c' (boot b)).2 (systemTask b c' polls' (boot b)) =
              [Event.call Fn.ledInit, Event.ledSet Led.SYS_LED true,
               Event.call Fn.xPortGetFreeHeapSize, Event.DEBUG_PRINT "Free heap: %d bytes\n",
               Event.call Fn.workerLoop]
          ∧ Event.call Fn.systemStart ∉ (systemTask b c' polls' (boot b)).trace
          ∧ (systemTask b c' polls' (boot b)).canStartMutex = some Mutex.held) := by
  have hT : systemTask b c polls (boot b) =
      (if (overrideLoop b polls (retest b c (boot b)).2).2 then
        systemTask_work (overrideLoop b polls (retest b c (boot b)).2).1
       else (overrideLoop b polls (retest b c (boot b)).2).1) := by
    rw [systemTask_eq, hfail]
    exact systemTask_start_loop b c polls _ hsys
  obtain ⟨evs, h1, h2, h3, h4, h5⟩ := overrideLoop_spec b polls (retest b c (boot b)).2
  have hw : Event.call Fn.workerLoop ∉ evs := by
    intro hm
    have := h2 _ hm
    simp at this
  refine ⟨hT, ?_, ?_, ?_⟩
  · intro hne
    have h52 := h5 hne
    have hlen : 2 ≤ evs.length := by
      have := congrArg List.length h52
      simp only [List.length_take, List.length_cons, List.length_nil] at this
      omega
    rw [hT]
    cases hx : (overrideLoop b polls (retest b c (boot b)).2).2
    · simp only [Bool.false_eq_true, if_false]
      rw [since_append _ _ _ h1]
      exact h52
    · simp only [if_true]
      rw [since_append _ _ (evs ++ [Event.call Fn.xPortGetFreeHeapSize,
          Event.DEBUG_PRINT "Free heap: %d bytes\n", Event.call Fn.workerLoop])
          (by rw [systemTask_work_trace, h1, List.append_assoc])]
      rw [List.take_append_of_le_length hlen]
      exact h52
  · rw [hT]
    cases hx : (overrideLoop b polls (retest b c (boot b)).2).2
    · simp only [Bool.false_eq_true, if_false]
      intro hm
      rw [h1] at hm
      rcases List.mem_append.mp hm with h | h
      · exact absurd h (quiet_before_loop b c).2
      · exact absurd h hw
    · simp only [if_true]
      intro _
      have h3' := h3 hx
      refine ⟨⟨(overrideLoop b polls (retest b c (boot b)).2).1.trace,
        systemTask_work_trace _, ?_⟩, ?_⟩
      · rw [h1]
        exact List.mem_append_right _ h3'.1
      · rw [systemTask_work_canStartMutex, h3'.2, (retest_fields b c (boot b)).2.1,
          afterInit_boot_canStartMutex]
        rfl
  · intro c' polls' hr
    have hagg := aggregate_of_retest_false b c' (boot b) hr
    have hF : systemTask b c' polls' (boot b) =
        systemTask_work (emit (.ledSet .SYS_LED true) (emit (.call .ledInit)
          (retest b c' (boot b)).2)) := by
      rw [systemTask_eq, hagg]
      exact systemTask_start_fatal b c' polls' _ hr
    have htr : (systemTask b c' polls' (boot b)).trace = (retest b c' (boot b)).2.trace ++
        [Event.call Fn.ledInit, Event.ledSet Led.SYS_LED true,
         Event.call Fn.xPortGetFreeHeapSize, Event.DEBUG_PRINT "Free heap: %d bytes\n",
         Event.call Fn.workerLoop] := by
      rw [hF, systemTask_work_trace, emit_trace, emit_trace]
      simp
    refine ⟨hagg, since_append _ _ _ htr, ?_, ?_⟩
    · rw [htr]
      simp only [List.mem_append, not_or]
      exact ⟨(quiet_before_loop b c').1, by simp⟩
    · rw [hF, systemTask_work_canStartMutex, emit_canStartMutex, emit_canStartMutex,
        (retest_fields b c' (boot b)).2.1, afterInit_boot_canStartMutex]

theorem aggregate_failure_enters_override_loop_witness :
    aggregate releaseBuild storageBroken (boot releaseBuild) = false
    ∧ (retest releaseBuild storageBroken (boot releaseBuild)).1 = true
    ∧ (since (retest releaseBuild storageBroken (boot releaseBuild)).2
        (systemTask releaseBuild storageBroken [[], [ExternalWrite.selftestPassed true]]
          (boot releaseBuild))).take 2
        = [Event.ledseqRun LedSeq.seq_testFailed, Event.vTaskDelay (releaseBuild.M2T 2000)]
    ∧ Event.call Fn.workerLoop
        ∈ (systemTask releaseBuild storageBroken [[], [ExternalWrite.selftestPassed true]]
            (boot releaseBuild)).trace
    ∧ (systemTask releaseBuild storageBroken [[], [ExternalWrite.selftestPassed true]]
        (boot releaseBuild)).canStartMutex = some Mutex.available :=
  have h := aggregate_failure_enters_override_loop releaseBuild storageBroken
    [[], [ExternalWrite.selftestPassed true]] (by rfl) (by rfl)
  ⟨by rfl, by rfl, h.2.1 (by simp), by decide, (h.2.2.1 (by decide)).2⟩

/-- Claim C6 fails as stated: `ledseqTest` fails, so the aggregate is false and the
`systemTest()` called again fails too; `systemTask` then does not enter the override loop
(no test-failed sequence, no delay) but lights `SYS_LED` and goes on to `workerLoop`
without any call of `systemStart`, the start mutex still held. -/
theorem systemTest_failure_skips_override_loop :
    aggregate releaseBuild ledseqBroken (boot releaseBuild) = false
    ∧ (retest releaseBuild ledseqBroken (boot releaseBuild)).1 = false
    ∧ Event.call Fn.workerLoop
        ∈ (systemTask releaseBuild ledseqBroken [[], []] (boot releaseBuild)).trace
    ∧ Event.call Fn.systemStart
        ∉ (systemTask releaseBuild ledseqBroken [[], []] (boot releaseBuild)).trace
    ∧ Event.ledseqRun LedSeq.seq_testFailed
        ∉ (systemTask releaseBuild ledseqBroken [[], []] (boot releaseBuild)).trace
    ∧ Event.vTaskDelay (releaseBuild.M2T 2000)
        ∉ (systemTask releaseBuild ledseqBroken [[], []] (boot releaseBuild)).trace
    ∧ Event.ledSet Led.SYS_LED true
        ∈ (systemTask releaseBuild ledseqBroken [[], []] (boot releaseBuild)).trace
    ∧ (systemTask releaseBuild ledseqBroken [[], []] (boot releaseBuild)).canStartMutex
        = some Mutex.held := by
  refine ⟨by rfl, by rfl, by decide, by decide, by decide, by decide, by decide, by rfl⟩


theorem systemTask_start_spec (b : BuildConfig) (c : Collaborators)
    (polls : List (List ExternalWrite)) (pass : Bool) (s : SystemState) :
    ∃ evs : List Event,
      (systemTask_start b c polls pass s).trace = s.trace ++ evs
      ∧ ∀ e ∈ evs, isModuleInit e = false := by
  cases pass
  · have hq := systemTest_quiet c { s with selftestPassed := false }
    have ht := systemTest_trace c { s with selftestPassed := false }
    have hg : (systemTest c { s with selftestPassed := false }).2.trace
        = s.trace ++ since { s with selftestPassed := false }
            (systemTest c { s with selftestPassed := false }).2 :=
      since_grows _ _ _ ht
    cases hr : (systemTest c { s with selftestPassed := false }).1
    · rw [systemTask_start_fatal b c polls s hr]
      refine ⟨since { s with selftestPassed := false }
          (systemTest c { s with selftestPassed := false }).2
          ++ [Event.call Fn.ledInit, Event.ledSet Led.SYS_LED true,
              Event.call Fn.xPortGetFreeHeapSize, Event.DEBUG_PRINT "Free heap: %d bytes\n",
              Event.call Fn.workerLoop], ?_, ?_⟩
      · rw [systemTask_work_trace, emit_trace, emit_trace, hg]
        simp
      · intro e he
        rcases List.mem_append.mp he with h | h
        · exact hq.2.2 e h
        · simp only [List.mem_cons, List.mem_singleton, List.not_mem_nil, or_false] at h
          rcases h with h | h | h | h | h <;> subst h <;> rfl
    · rw [systemTask_start_loop b c polls s hr]
      obtain ⟨evs, h1, h2, _⟩ :=
        overrideLoop_spec b polls (systemTest c { s with selftestPassed := false }).2
      have h2' : ∀ e ∈ evs, isModuleInit e = false := by
        intro e he
        have h := h2 e he
        simp only [List.mem_cons, List.mem_singleton, List.not_mem_nil, or_false] at h
        rcases h with h | h | h | h | h <;> subst h <;> rfl
      cases hx : (overrideLoop b polls (systemTest c { s with selftestPassed := false }).2).2
      · refine ⟨since { s with selftestPassed := false }
            (systemTest c { s with selftestPassed := false }).2 ++ evs, ?_, ?_⟩
        · simp only [Bool.false_eq_true, if_false]
          rw [h1, hg, List.append_assoc]
        · intro e he
          rcases List.mem_append.mp he with h | h
          · exact hq.2.2 e h
          · exact h2' e h
      · refine ⟨since { s with selftestPassed := false }
            (systemTest c { s with selftestPassed := false }).2 ++ (evs
            ++ [Event.call Fn.xPortGetFreeHeapSize, Event.DEBUG_PRINT "Free heap: %d bytes\n",
                Event.call Fn.workerLoop]), ?_, ?_⟩
        · simp only [if_true]
          rw [systemTask_work_trace, h1, hg]
          simp
        · intro e he
          rcases List.mem_append.mp he with h | h
          · exact hq.2.2 e h
          · rcases List.mem_append.mp h with h | h
            · exact h2' e h
            · simp only [List.mem_cons, List.mem_singleton, List.not_mem_nil, or_false] at h
              rcases h with h | h | h <;> subst h <;> rfl
  · rw [systemTask_start_pass]
    refine ⟨Event.call Fn.systemStart :: (if b.DEBUG then [] else [Event.call Fn.watchdogInit])
        ++ [Event.soundSetEffect_SND_STARTUP, Event.ledseqRun LedSeq.seq_alive,
            Event.ledseqRun LedSeq.seq_testPassed, Event.call Fn.xPortGetFreeHeapSize,
            Event.DEBUG_PRINT "Free heap: %d bytes\n", Event.call Fn.workerLoop], ?_, ?_⟩
    · rw [systemTask_work_trace, emit_trace, emit_trace, emit_trace, systemStart_trace]
      simp
    · have hall : (Event.call Fn.systemStart ::
          (if b.DEBUG then [] else [Event.call Fn.watchdogInit])
          ++ [Event.soundSetEffect_SND_STARTUP, Event.ledseqRun LedSeq.seq_alive,
              Event.ledseqRun LedSeq.seq_testPassed, Event.call Fn.xPortGetFreeHeapSize,
              Event.DEBUG_PRINT "Free heap: %d bytes\n", Event.call Fn.workerLoop]).all
          (fun e => !isModuleInit e) = true := by
        cases b.DEBUG <;> rfl
      intro e he
      have h := List.all_eq_true.mp hall e he
      simpa using h

/-- Claim C4, as amended.  In every run of `systemTask` the trace falls into three parts:
the init part, the aggregate self-test part and the rest.  Every module init call occurs
in the first part and none later; the thirteen self-tests of the aggregate (with their
sub-tests) are invoked in the second part; no `systemStart` is called in the first two.
The only self-tests invoked in the init part are `commTest` and its six sub-tests, which
`commInit` calls itself (unless `comm.c` was initialised before), ahead of the module init
calls that follow `commInit`. -/
theorem init_precedes_aggregate_selfTest_precedes_start (b : BuildConfig) (c : Collaborators)
    (polls : List (List ExternalWrite)) (s : SystemState) :
    (systemTask b c polls s).trace =
        s.trace ++ (since s (afterInit b c s)
          ++ (since (afterInit b c s) (afterSelfTest b c s)
            ++ since (afterSelfTest b c s) (systemTask b c polls s)))
    ∧ (Event.call Fn.systemInit ∈ since s (afterInit b c s)
        ∧ Event.call Fn.commInit ∈ since s (afterInit b c s)
        ∧ Event.call Fn.commanderInit ∈ since s (afterInit b c s)
        ∧ Event.call Fn.estimatorKalmanTaskInit ∈ since s (afterInit b c s)
        ∧ Event.call Fn.deckInit ∈ since s (afterInit b c s)
        ∧ Event.stabilizerInit c.deckGetRequiredEstimator ∈ since s (afterInit b c s)
        ∧ Event.call Fn.soundInit ∈ since s (afterInit b c s)
        ∧ Event.call Fn.memInit ∈ since s (afterInit b c s))
    ∧ (∀ e ∈ since (afterInit b c s) (afterSelfTest b c s)
          ++ since (afterSelfTest b c s) (systemTask b c polls s), isModuleInit e = false)
    ∧ testsInvoked (since (afterInit b c s) (afterSelfTest b c s))
        = [.systemTest, .ledseqTest, .pmTest, .workerTest, .buzzerTest,
           .configblockTest, .storageTest,
           .commTest, .radiolinkTest, .crtpTest, .crtpserviceTest, .platformserviceTest,
           .consoleTest, .paramTest,
           .commanderTest, .stabilizerTest, .estimatorKalmanTaskTest, .deckTest, .soundTest,
           .memTest, .watchdogNormalStartTest, .cfAssertNormalStartTest,
           .peerLocalizationTest]
    ∧ Event.call Fn.systemStart
        ∉ since s (afterInit b c s) ++ since (afterInit b c s) (afterSelfTest b c s)
    ∧ testsInvoked (since s (afterInit b c s))
        = (if s.commIsInit then [] else Test.commTest :: commSubTests)
    ∧ (∀ s' : SystemState, testsInvoked (since s' (commInit c s'))
        = (if s'.commIsInit then [] else Test.commTest :: commSubTests)) := by
  obtain ⟨evs, h1, h2⟩ :=
    systemTask_start_spec b c polls (aggregate b c s) (afterSelfTest b c s)
  rw [← systemTask_eq] at h1
  have hs := since_append _ _ _ h1
  have hA := systemTask_init_grows b c s
  have hB := (afterSelfTest_fields b c s).2.2
  refine ⟨?_, systemTask_init_calls b c s, ?_, testsInvoked_selfTest c _, ?_,
    testsInvoked_init b c s, ?_⟩
  · rw [hs, h1, hB]
    unfold afterInit
    rw [hA]
    simp
  · intro e he
    rcases List.mem_append.mp he with h | h
    · exact (systemTask_selfTest_quiet c _).2.2 e h
    · rw [hs] at h
      exact h2 e h
  · simp only [List.mem_append, not_or]
    exact ⟨(systemTask_init_quiet b c s).1, (systemTask_selfTest_quiet c _).1⟩
  · intro s'
    rw [since_append _ _ _ (commInit_trace c s')]
    cases h : s'.commIsInit <;>
      simp [testsInvoked_cons, testsInvoked_nil, commSubTests]

/-- Claim C4 fails as stated: in the run of a healthy release build from power-on,
`commTest` is invoked (inside `commInit`) at position 32 of the trace, before the module
init calls `commanderInit` (position 52) and `memInit` (position 63). -/
theorem commTest_runs_before_later_inits :
    (systemTask releaseBuild healthy [] (boot releaseBuild)).trace[32]?
        = some (Event.test Test.commTest)
    ∧ (systemTask releaseBuild healthy [] (boot releaseBuild)).trace[52]?
        = some (Event.call Fn.commanderInit)
    ∧ (systemTask releaseBuild healthy [] (boot releaseBuild)).trace[63]?
        = some (Event.call Fn.memInit)
    ∧ ¬ (∀ (i j : Nat) (e : Event) (t : Test),
          (systemTask releaseBuild healthy [] (boot releaseBuild)).trace[i]? = some e →
          isModuleInit e = true →
          (systemTask releaseBuild healthy [] (boot releaseBuild)).trace[j]?
            = some (Event.test t) →
          i < j) := by
  refine ⟨by rfl, by rfl, by rfl, ?_⟩
  intro h
  have := h 52 32 (Event.call Fn.commanderInit) Test.commTest (by rfl) (by rfl) (by rfl)
  omega

end Crazyflie
